import Mathlib

/-!
# Annual report page (`static/report.js`)

A shallow embedding of the contribution heat map (`renderGreenWall`), of the
reward tier of `generate_report` and of the UID check of the page-load
handler, together with the properties of the written specification that hold
of them.

JavaScript numbers that hold integers are modelled by `Int`; a value of type
`Option Int` is a JavaScript number that may be `NaN` (`none`).  The `Date`
built-ins follow the abstract operations of ECMA-262, section 21.4.1.
-/

namespace Report

/-! ## ECMAScript `Date` arithmetic -/

/-- ECMA-262 `msPerDay`. -/
def msPerDay : Int := 86400000

/-- ECMA-262 `Day(t) = floor(t / msPerDay)`. -/
def Day (t : Int) : Int := t / msPerDay

/-- ECMA-262 `DaysInYear(y)`. -/
def DaysInYear (y : Int) : Int :=
  if y % 4 ≠ 0 then 365
  else if y % 100 ≠ 0 then 366
  else if y % 400 ≠ 0 then 365
  else 366

/-- ECMA-262 `DayFromYear(y)`: the day number of January 1 of year `y`. -/
def DayFromYear (y : Int) : Int :=
  365 * (y - 1970) + (y - 1969) / 4 - (y - 1901) / 100 + (y - 1601) / 400

/-- ECMA-262 `TimeFromYear(y)`. -/
def TimeFromYear (y : Int) : Int := msPerDay * DayFromYear y

/-- ECMA-262 `YearFromTime(t)`: the largest `y` with `TimeFromYear(y) ≤ t`.
The standard states it as a characterisation; this is a computable version
(an estimate from the mean year length, corrected by at most one year), and
`YearFromTime_spec` shows that it meets the characterisation. -/
def YearFromTime (t : Int) : Int :=
  let y0 := 1970 + (Day t * 400) / 146097
  if TimeFromYear (y0 + 1) ≤ t then y0 + 1
  else if TimeFromYear y0 ≤ t then y0
  else y0 - 1

/-- ECMA-262 `InLeapYear(t)`. -/
def InLeapYear (t : Int) : Int :=
  if DaysInYear (YearFromTime t) = 366 then 1 else 0

/-- ECMA-262 `DayWithinYear(t)`. -/
def DayWithinYear (t : Int) : Int := Day t - DayFromYear (YearFromTime t)

/-- The table of ECMA-262 `MonthFromTime`, on the day within the year `d` and
the leap flag `l`. -/
def MonthFromDay (d l : Int) : Int :=
  if d < 31 then 0
  else if d < 59 + l then 1
  else if d < 90 + l then 2
  else if d < 120 + l then 3
  else if d < 151 + l then 4
  else if d < 181 + l then 5
  else if d < 212 + l then 6
  else if d < 243 + l then 7
  else if d < 273 + l then 8
  else if d < 304 + l then 9
  else if d < 334 + l then 10
  else 11

/-- The table of ECMA-262 `DateFromTime`, on the day within the year `d` and
the leap flag `l`. -/
def DateFromDay (d l : Int) : Int :=
  let m := MonthFromDay d l
  if m = 0 then d + 1
  else if m = 1 then d - 30
  else if m = 2 then d - 58 - l
  else if m = 3 then d - 89 - l
  else if m = 4 then d - 119 - l
  else if m = 5 then d - 150 - l
  else if m = 6 then d - 180 - l
  else if m = 7 then d - 211 - l
  else if m = 8 then d - 242 - l
  else if m = 9 then d - 272 - l
  else if m = 10 then d - 303 - l
  else d - 333 - l

/-- ECMA-262 `MonthFromTime(t)` (0 = January). -/
def MonthFromTime (t : Int) : Int := MonthFromDay (DayWithinYear t) (InLeapYear t)

/-- ECMA-262 `DateFromTime(t)` (day of the month, from 1). -/
def DateFromTime (t : Int) : Int := DateFromDay (DayWithinYear t) (InLeapYear t)

/-- ECMA-262 `WeekDay(t)` (0 = Sunday). -/
def WeekDay (t : Int) : Int := (Day t + 4) % 7

/-- ECMA-262 `MakeFullYear`: `Date.UTC` reads a year from 0 to 99 as 1900 plus
that year. -/
def MakeFullYear (year : Int) : Int :=
  if 0 ≤ year ∧ year ≤ 99 then 1900 + year else year

/-- Days of a year that come before month `mn` (0 = January), by the table of
`MonthFromTime`. -/
def DaysBeforeMonth (mn l : Int) : Int :=
  if mn = 0 then 0
  else if mn = 1 then 31
  else if mn = 2 then 59 + l
  else if mn = 3 then 90 + l
  else if mn = 4 then 120 + l
  else if mn = 5 then 151 + l
  else if mn = 6 then 181 + l
  else if mn = 7 then 212 + l
  else if mn = 8 then 243 + l
  else if mn = 9 then 273 + l
  else if mn = 10 then 304 + l
  else 334 + l

/-- ECMA-262 `MakeDay(year, month, date)` on integers: the day number of the
first of month `month mod 12` of year `year + floor(month / 12)`, plus
`date - 1`.  (Where the standard gives up because no time value exists,
`TimeClip` below rejects the result as well.) -/
def MakeDay (year month date : Int) : Int :=
  let ym := year + month / 12
  let mn := month % 12
  DayFromYear ym + DaysBeforeMonth mn (if DaysInYear ym = 366 then 1 else 0) + date - 1

/-- ECMA-262 `MakeDate(day, time)`. -/
def MakeDate (day time : Int) : Int := day * msPerDay + time

/-- ECMA-262 `TimeClip`: a time farther than 8.64e15 ms from the epoch is `NaN`. -/
def TimeClip (time : Int) : Option Int :=
  if 8640000000000000 < |time| then none else some time

/-- The time value of `new Date(Date.UTC(year, month, date))`, `none` for an
Invalid Date. -/
def DateUTC (year month date : Int) : Option Int :=
  TimeClip (MakeDate (MakeDay (MakeFullYear year) month date) 0)

/-- The method `Date.prototype.getUTCFullYear` (`NaN` on an Invalid Date). -/
def getUTCFullYear (tv : Option Int) : Option Int := tv.map YearFromTime

/-- The method `Date.prototype.getUTCMonth`. -/
def getUTCMonth (tv : Option Int) : Option Int := tv.map MonthFromTime

/-- The method `Date.prototype.getUTCDate`. -/
def getUTCDate (tv : Option Int) : Option Int := tv.map DateFromTime

/-- The method `Date.prototype.getUTCDay`. -/
def getUTCDay (tv : Option Int) : Option Int := tv.map WeekDay

/-- The conversion `String(n)` of a number that is an integer or `NaN`. -/
def jsString (n : Option Int) : String :=
  match n with
  | none => "NaN"
  | some k => toString k

/-- The method `String.prototype.padStart(targetLength, c)` with a one-character
filler. -/
def padStart (s : String) (targetLength : Nat) (c : Char) : String :=
  String.mk (List.replicate (targetLength - s.length) c) ++ s

/-- The method `Array.prototype.slice(b, e)` for `0 ≤ b ≤ e`. -/
def slice {α : Type} (xs : List α) (b e : Nat) : List α := (xs.take e).drop b

/-! ## `renderGreenWall` -/

/-- Side of a cell. -/
def CELL_SIZE : Int := 11

/-- Gap between two cells. -/
def CELL_SPACING : Int := 3

/-- Room for the weekday labels on the left. -/
def leftMargin : Int := 32

/-- Room for the month labels on top. -/
def topMargin : Int := 20

/-- The texts of the month labels. -/
def MONTH_LABELS : List String :=
  ["Jan", "Feb", "Mar", "Apr", "May", "Jun", "Jul", "Aug", "Sep", "Oct", "Nov", "Dec"]

/-- The eleven tier colours. -/
def COLORS : List String :=
  ["#ebedf0", "#9be9a8", "#40c463", "#30904e", "#216e39",
   "#ffd700", "#daa520", "#b8860b",
   "#ff0000", "#cd0000", "#8b0000"]

/-- The helper `isLeapYear` local to `renderGreenWall`; `%` is the truncating
remainder of JavaScript. -/
def renderGreenWall.isLeapYear (y : Int) : Bool :=
  (Int.tmod y 4 == 0 && Int.tmod y 100 != 0) || Int.tmod y 400 == 0

/-- The helper `getColor` local to `renderGreenWall`. -/
def getColor (v : Nat) : String :=
  if v = 0 then COLORS.getD 0 ""
  else if v ≤ 10 then COLORS.getD 1 ""
  else if v ≤ 20 then COLORS.getD 2 ""
  else if v ≤ 30 then COLORS.getD 3 ""
  else if v ≤ 50 then COLORS.getD 4 ""
  else if v ≤ 100 then COLORS.getD 5 ""
  else if v ≤ 150 then COLORS.getD 6 ""
  else if v ≤ 200 then COLORS.getD 7 ""
  else if v ≤ 300 then COLORS.getD 8 ""
  else if v ≤ 500 then COLORS.getD 9 ""
  else if v ≤ 1000 then COLORS.getD 10 ""
  else "#000000"

/-- One cell of the grid.  `utcDate = none` is `null`; `utcDate = some tv` is a
`Date` whose time value is `tv` (`none` for an Invalid Date).  `dayOfWeek` is a
number that may be `NaN`.  A real day has no `isEmpty` property, which reads as
`false`. -/
structure DayCell where
  utcDate : Option (Option Int)
  isoDate : Option String
  mmdd : Option String
  dayOfWeek : Option Int
  value : Nat
  isEmpty : Bool
deriving DecidableEq, Repr

/-- The object pushed for a padding position, with `dayOfWeek` as given. -/
def emptyCell (dayOfWeek : Nat) : DayCell where
  utcDate := none
  isoDate := none
  mmdd := none
  dayOfWeek := some (dayOfWeek : Int)
  value := 0
  isEmpty := true

/-- Body of the loop of step 1 for day offset `i`: the cell of
`year-01-01 + i` days.  `dataDict[mmdd] || 0` is the stored count, or 0 when
the key is absent (or the count is 0). -/
def dailyCell (year : Int) (dataDict : String → Option Nat) (i : Nat) : DayCell :=
  let utcDate := DateUTC year 0 (1 + (i : Int))
  let mm := padStart (jsString ((getUTCMonth utcDate).map (· + 1))) 2 '0'
  let dd := padStart (jsString (getUTCDate utcDate)) 2 '0'
  let mmdd := mm ++ "-" ++ dd
  let value := match dataDict mmdd with
    | none => 0
    | some v => if v = 0 then 0 else v
  { utcDate := some utcDate
    isoDate := some (jsString (getUTCFullYear utcDate) ++ "-" ++ mm ++ "-" ++ dd)
    mmdd := some mmdd
    dayOfWeek := getUTCDay utcDate
    value := value
    isEmpty := false }

/-- Step 1: `daysInYear`. -/
def daysInYear (year : Int) : Nat := if renderGreenWall.isLeapYear year then 366 else 365

/-- Step 1: the array `dailyData`. -/
def dailyData (year : Int) (dataDict : String → Option Nat) : List DayCell :=
  (List.range (daysInYear year)).map (dailyCell year dataDict)

/-- Step 2: `firstDayOfWeek` (`NaN` when January 1 is an Invalid Date). -/
def firstDayOfWeek (year : Int) : Option Int := getUTCDay (DateUTC year 0 1)

/-- Step 2: the number of rounds of `for (i = 0; i < firstDayOfWeek; i++)`;
`i < NaN` is false. -/
def leadingCount (year : Int) : Nat :=
  match firstDayOfWeek year with
  | none => 0
  | some w => w.toNat

/-- Step 2: the array `paddedData`. -/
def paddedData (year : Int) (dataDict : String → Option Nat) : List DayCell :=
  (List.range (leadingCount year)).map emptyCell ++ dailyData year dataDict

/-- The loop `while (week.length < 7) push(...)` of step 3, for the week that
starts at index `i`; the first argument bounds the number of rounds. -/
def padWeek (i : Nat) : Nat → List DayCell → List DayCell
  | 0, week => week
  | fuel + 1, week =>
    if week.length < 7 then
      padWeek i fuel (week ++ [emptyCell ((i + week.length) % 7)])
    else week

/-- The loop `for (i = 0; i < paddedData.length; i += 7)` of step 3, from
index `i`; the first argument bounds the number of rounds. -/
def weeksLoop (padded : List DayCell) : Nat → Nat → List (List DayCell)
  | 0, _ => []
  | fuel + 1, i =>
    if i < padded.length then
      padWeek i 7 (slice padded i (i + 7)) :: weeksLoop padded fuel (i + 7)
    else []

/-- Step 3: the array `weeks`.  The index grows by 7 each round, so
`padded.length` rounds are enough. -/
def buildWeeks (padded : List DayCell) : List (List DayCell) :=
  weeksLoop padded padded.length 0

/-- A `rect` element of the SVG. -/
structure Rect where
  x : Int
  y : Option Int
  fill : String
  title : Option String
deriving DecidableEq, Repr

/-- Step 5: the `rect` of one cell in column `colIndex`. -/
def cellRect (colIndex : Nat) (cell : DayCell) : Rect where
  x := (colIndex : Int) * (CELL_SIZE + CELL_SPACING) + leftMargin
  y := cell.dayOfWeek.map (fun d => d * (CELL_SIZE + CELL_SPACING) + topMargin)
  fill := getColor cell.value
  title :=
    if !cell.isEmpty then
      some (cell.isoDate.getD "null" ++ ": " ++ toString cell.value ++ " posts")
    else none

/-- Step 5: the rectangles of the weeks from column `colIndex` on. -/
def rectsFrom : List (List DayCell) → Nat → List Rect
  | [], _ => []
  | week :: rest, colIndex => week.map (cellRect colIndex) ++ rectsFrom rest (colIndex + 1)

/-- A month label: its column, its `x` and its text (`none` when
`MONTH_LABELS[month]` is `undefined`). -/
structure MonthLabel where
  colIndex : Nat
  x : Int
  text : Option String
deriving DecidableEq, Repr

/-- Step 6: `month !== lastMonth` on numbers that may be `NaN`. -/
def jsNe (a b : Option Int) : Bool :=
  match a, b with
  | some x, some y => x != y
  | _, _ => true

/-- Step 6: `MONTH_LABELS[month]`. -/
def monthLabelText (month : Option Int) : Option String :=
  match month with
  | some m => if 0 ≤ m then MONTH_LABELS.get? m.toNat else none
  | none => none

/-- Step 6: the month labels of the weeks from column `colIndex` on, with the
current `lastMonth`.  `none` is the `TypeError` of reading `getUTCMonth` from a
`null` date. -/
def monthLabelsFrom : List (List DayCell) → Nat → Option Int → Option (List MonthLabel)
  | [], _, _ => some []
  | week :: rest, colIndex, lastMonth =>
    match week.find? (fun c => !c.isEmpty) with
    | none => monthLabelsFrom rest (colIndex + 1) lastMonth
    | some firstValid =>
      match firstValid.utcDate with
      | none => none
      | some tv =>
        let month := getUTCMonth tv
        if jsNe month lastMonth then
          (monthLabelsFrom rest (colIndex + 1) month).map
            (fun ls =>
              { colIndex := colIndex
                x := (colIndex : Int) * (CELL_SIZE + CELL_SPACING) + leftMargin
                text := monthLabelText month } :: ls)
        else monthLabelsFrom rest (colIndex + 1) lastMonth

/-- What `renderGreenWall` builds: the week columns and the SVG made of them. -/
structure GreenWall where
  weeks : List (List DayCell)
  totalWidth : Int
  totalHeight : Int
  rects : List Rect
  monthLabels : List MonthLabel
deriving DecidableEq, Repr

/-- Outcome of `renderGreenWall`. -/
inductive RenderResult where
  | noContainer
  | typeError
  | svg (g : GreenWall)
deriving DecidableEq, Repr

/-- The function `renderGreenWall(year, dataDict)`; `container` tells whether
the element `#green_wall` exists.  The weekday labels of step 7 and the
download closure do not depend on the data and are left out. -/
def renderGreenWall (container : Bool) (year : Int) (dataDict : String → Option Nat) :
    RenderResult :=
  if !container then RenderResult.noContainer
  else
    let weeks := buildWeeks (paddedData year dataDict)
    match monthLabelsFrom weeks 0 (some (-1)) with
    | none => RenderResult.typeError
    | some labels =>
      RenderResult.svg
        { weeks := weeks
          totalWidth := (weeks.length : Int) * (CELL_SIZE + CELL_SPACING) + leftMargin + 10
          totalHeight := 7 * (CELL_SIZE + CELL_SPACING) + topMargin + 10
          rects := rectsFrom weeks 0
          monthLabels := labels }

/-! ## Top-level helpers and `generate_report` -/

/-- JavaScript `a % b` for a number `a` that is an integer or `NaN` (`none`):
the truncating remainder, and `NaN % b = NaN`. -/
def jsRem (a : Option Int) (b : Int) : Option Int := a.map (fun x => Int.tmod x b)

/-- The top-level `isLeapYear(y)`.  The argument is `some y` for an integer and
`none` for a call without argument (`undefined`, which `%` turns into `NaN`):
`NaN === 0` is false and `NaN !== 0` is true. -/
def isLeapYear (y : Option Int) : Bool :=
  (jsRem y 4 == some 0 && jsRem y 100 != some 0) || jsRem y 400 == some 0

/-- The top-level `getDaysInYear(y)`. -/
def getDaysInYear (y : Option Int) : Int := if isLeapYear y then 366 else 365

/-- What the reward block of `generate_report` writes: whether
`summary_reward_message` is put on display, and the text set on
`summary_reward` (both elements taken to exist). -/
structure RewardView where
  messageShown : Bool
  reward : Option String
deriving DecidableEq, Repr

/-- The reward block of `generate_report` (lines 299 to 306), for
`data.year = year` and `data.summary.post_days = post_days`.  The outer test
passes `year`; the three inner tests call `getDaysInYear()` with no argument. -/
def generate_report.summary_reward (year post_days : Int) : RewardView :=
  if getDaysInYear (some year) - post_days < 90 then
    { messageShown := true
      reward := some (
        if getDaysInYear none - post_days = 0 then "全勤奖"
        else if getDaysInYear none - post_days ≤ 15 then "差点全勤奖"
        else if getDaysInYear none - post_days ≤ 45 then "活跃奖"
        else "水水奖") }
  else { messageShown := false, reward := none }

/-! ## The page-load handler -/

/-- A JavaScript number as the UID check sees it: `NaN`, an infinity, or a
finite value (every finite double is a rational). -/
inductive JSNumber where
  | nan
  | infinity (negative : Bool)
  | finite (q : ℚ)
deriving DecidableEq

/-- The test `Number.isInteger(x)`. -/
def JSNumber.isInteger : JSNumber → Bool
  | JSNumber.finite q => q.isInt
  | _ => false

/-- The comparison `x <= 0`. -/
def JSNumber.leZero : JSNumber → Bool
  | JSNumber.nan => false
  | JSNumber.infinity negative => negative
  | JSNumber.finite q => decide (q ≤ 0)

/-- The parsed body of the response when it is JSON. -/
inductive ApiResult where
  | notObject
  | noCode
  | success (hasData : Bool)
  | failure (message : Option String)
deriving DecidableEq

/-- What `fetch` and `response.json()` give back. -/
inductive Response where
  | networkError (message : String)
  | notJson (ok : Bool) (status : Nat) (statusText : String)
  | json (result : ApiResult)
deriving DecidableEq

/-- The observable effects of one run of the handler: the `alert` shown, the
uid of the request sent, the HTML written into `#search_report`, and whether
`generate_report` was called. -/
structure HandlerEffects where
  alert : Option String
  request : Option JSNumber
  innerHTML : Option String
  report : Bool
deriving DecidableEq

/-- The HTML that the `catch` block writes for an error with `message`. -/
def errorView (message : String) : String :=
  "<h1 style=\"color: #ff2121; margin: 1em 0;\">错误: " ++ message ++ "</h1>"

/-- The handler stopping in its `catch` with `message`, after the request
`request` (if any). -/
def caught (request : Option JSNumber) (message : String) : HandlerEffects where
  alert := none
  request := request
  innerHTML := some (errorView message)
  report := false

/-- The part of the handler after `fetch` has answered with `response`. -/
def afterFetch (uid : JSNumber) (response : Response) : HandlerEffects :=
  match response with
  | Response.networkError message => caught (some uid) message
  | Response.notJson ok status statusText =>
    if !ok then caught (some uid) ("错误: " ++ toString status ++ " " ++ statusText)
    else caught (some uid) "服务器返回了非 JSON 内容"
  | Response.json ApiResult.notObject => caught (some uid) "API 返回的数据格式无效"
  | Response.json ApiResult.noCode => caught (some uid) "API 返回的数据格式无效"
  | Response.json (ApiResult.success hasData) =>
    if !hasData then caught (some uid) "API 返回成功，但缺少 data 字段"
    else { alert := none, request := some uid, innerHTML := none, report := true }
  | Response.json (ApiResult.failure message) =>
    match message with
    | none => caught (some uid) "未知 API 错误"
    | some m => if m = "" then caught (some uid) "未知 API 错误" else caught (some uid) m

/-- The `DOMContentLoaded` handler.  `container` tells whether `#search_report`
exists, `uidStr` is `params.get(uid)` (`none` for `null`), `toNumber` is the
conversion `Number(...)` of the runtime and `server` answers a request. -/
def handler (container : Bool) (uidStr : Option String) (toNumber : String → JSNumber)
    (server : JSNumber → Response) : HandlerEffects :=
  if !container then
    { alert := some "DOM结构异常：请尝试刷新网页", request := none, innerHTML := none,
      report := false }
  else
    match uidStr with
    | none => caught none "未找到 UID 参数"
    | some str =>
      if str = "" then caught none "未找到 UID 参数"
      else
        let uid := toNumber str
        if !uid.isInteger || uid.leZero then caught none "UID 必须为正整数"
        else afterFetch uid (server uid)

/-! ## The calendar and the colour tiers as the specification describes them -/

/-- The leap-year rule of the proleptic Gregorian calendar: divisible by 4 and
not by 100, or divisible by 400. -/
def gregorianLeap (y : Int) : Bool := decide ((4 ∣ y ∧ ¬ 100 ∣ y) ∨ 400 ∣ y)

/-- Length of month `m` (1 = January) in a common or a leap year. -/
def gregorianMonthLength (leap : Bool) (m : Nat) : Nat :=
  if m = 2 then (if leap then 29 else 28)
  else if m = 4 ∨ m = 6 ∨ m = 9 ∨ m = 11 then 30
  else 31

/-- The (month, day) pairs of a year in calendar order. -/
def monthDays (leap : Bool) : List (Int × Int) :=
  (List.range 12).flatMap (fun m =>
    (List.range (gregorianMonthLength leap (m + 1))).map
      (fun d => (((m + 1 : Nat) : Int), ((d + 1 : Nat) : Int))))

/-- The calendar dates of year `y`, from `y-01-01` to `y-12-31`, as
(year, month, day). -/
def calendarDates (y : Int) : List (Int × Int × Int) :=
  (monthDays (gregorianLeap y)).map (fun md => (y, md.1, md.2))

/-- Strict calendar order on (year, month, day). -/
def dateLt (a b : Int × Int × Int) : Prop :=
  a.1 < b.1 ∨ (a.1 = b.1 ∧ (a.2.1 < b.2.1 ∨ (a.2.1 = b.2.1 ∧ a.2.2 < b.2.2)))

/-- Number of days of year `y` in the proleptic Gregorian calendar. -/
def gregorianYearLength (y : Int) : Int := if gregorianLeap y then 366 else 365

/-- Days from 1 January 1970 to 1 January of year `y` (negative before 1970),
counted one year at a time. -/
def daysSince1970 (y : Int) : Int :=
  if 1970 ≤ y then
    ((List.range (y - 1970).toNat).map (fun k : Nat => gregorianYearLength (1970 + (k : Int)))).sum
  else
    - ((List.range (1970 - y).toNat).map (fun k : Nat => gregorianYearLength (y + (k : Int)))).sum

/-- Weekday of 1 January of year `y`, 0 = Sunday to 6 = Saturday: 1 January
1970 was a Thursday and the weekday advances by one each day. -/
def weekdayOfJan1 (y : Int) : Int := (4 + daysSince1970 y) % 7

/-- The calendar date a cell carries, read from its `utcDate`: `none` for a
padding cell (`null`) and for an Invalid Date. -/
def DayCell.date (c : DayCell) : Option (Int × Int × Int) :=
  match c.utcDate with
  | some (some t) => some (YearFromTime t, MonthFromTime t + 1, DateFromTime t)
  | _ => none

/-- The non-padding cells of a grid in grid order: week by week, position 0 to
6 inside a week. -/
def realCells (weeks : List (List DayCell)) : List DayCell :=
  weeks.flatten.filter (fun c => !c.isEmpty)

/-- The number of padding cells at the head of the grid. -/
def leadingPadding (weeks : List (List DayCell)) : Nat :=
  (weeks.flatten.takeWhile (fun c => c.isEmpty)).length

/-- Tier index of a colour: 0 to 10 for `COLORS[0..10]`, 11 for the overflow
colour. -/
def tierIndex (colour : String) : Nat := (COLORS ++ ["#000000"]).indexOf colour

/-- The padding cells that fill the last week of a grid of `n` cells: the cell
at index `n + k` gets `dayOfWeek = (n + k) % 7`. -/
def tailPadding (n : Nat) : List DayCell :=
  (List.range ((7 - n % 7) % 7)).map (fun k => emptyCell ((n + k) % 7))

/-- The month (1 = January) of the first non-padding cell of a week, if any. -/
def firstRealMonth (week : List DayCell) : Option Int :=
  (week.find? (fun c => !c.isEmpty)).bind (fun c => c.date.map (fun dt => dt.2.1))

/-- The column (week index) that contains the cell of the date `dt`. -/
def columnOfDate (weeks : List (List DayCell)) (dt : Int × Int × Int) : Option Nat :=
  weeks.findIdx? (fun w => w.any (fun c => decide (c.date = some dt)))

/-- The data of the call example in the source: 419 posts on 01-01 and 74 on
01-03. -/
def exampleData : String → Option Nat :=
  fun key => if key = "01-01" then some 419 else if key = "01-03" then some 74 else none

/-- A data mapping without entries. -/
def emptyData : String → Option Nat := fun _ => none

/-- A cell with its count forgotten: what is left does not depend on the data. -/
def DayCell.shape (c : DayCell) : DayCell := { c with value := 0 }

/-- The zero-padded `MM-DD` key of a date, as step 1 builds it. -/
def mmddKey (tv : Option Int) : String :=
  padStart (jsString ((getUTCMonth tv).map (· + 1))) 2 '0' ++ "-" ++
    padStart (jsString (getUTCDate tv)) 2 '0'

/-- The values of `Number(s)` for the two strings of the examples, `5` and
`-3`; no other string is converted there. -/
def exampleNumber (s : String) : JSNumber :=
  if s = "5" then JSNumber.finite 5
  else if s = "-3" then JSNumber.finite (-3)
  else JSNumber.nan

/-- A server that answers every request with a successful report. -/
def exampleServer : JSNumber → Response := fun _ => Response.json (ApiResult.success true)

/-! ## The link areas of `generate_report` -/

/-- A node appended to a link area: an anchor with its `href` and text, or a
`span` with its text. -/
inductive Node where
  | a (href textContent : String)
  | span (textContent : String)
deriving DecidableEq, Repr

/-- The ten link areas, by the `id` of their element. -/
inductive Area where
  | thread_most_support_link_area
  | thread_most_oppose_link_area
  | reply_most_support_link_area
  | reply_most_oppose_link_area
  | reply_thread_most_link_area
  | thread_replies_most_link_area
  | thread_views_most_link_area
  | thread_favorite_most_link_area
  | forum_most_favorite_link_area
  | reply_user_most_link_area
deriving DecidableEq, Repr

/-- The children of each link area. -/
abbrev Dom := Area → List Node

/-- The method `appendChild` on the element of `area`. -/
def appendChild (dom : Dom) (area : Area) (node : Node) : Dom :=
  fun x => if x = area then dom x ++ [node] else dom x

/-- An entry `list[i]` of a link list: its fields, as the text they print to. -/
abbrev Entry := List String

/-- The field `list[i][k]`. -/
def Entry.field (e : Entry) (k : Nat) : String := e.getD k "undefined"

/-- The function `get_thread_link(tid)`. -/
def get_thread_link (tid : String) : String := "https://bbs.uestc.edu.cn/thread/" ++ tid

/-- The function `get_post_link(pid)`. -/
def get_post_link (pid : String) : String := "https://bbs.uestc.edu.cn/goto/" ++ pid

/-- The function `get_user_link(username)`. -/
def get_user_link (username : String) : String :=
  "https://bbs.uestc.edu.cn/user/name/" ++ username

/-- The function `get_forum_link(fid)`. -/
def get_forum_link (fid : String) : String := "https://bbs.uestc.edu.cn/forum/" ++ fid

/-- The separator `span` of the link lists. -/
def sepNode : Node := Node.span "，"

/-- The loop `for (let i = 0; i < list.length; i++)` of a link block, from
index `i`: the nodes `render list[i]` are appended to the area `own`, and when
`i + 1 < list.length` a separator is appended to the area `sep`.  `none` is the
`TypeError` of `appendChild` on a missing element (`present sep = false`).  The
first argument bounds the number of rounds. -/
def linkLoop (present : Area → Bool) (own sep : Area) (render : Entry → List Node)
    (list : List Entry) : Nat → Nat → Dom → Option Dom
  | 0, _, dom => some dom
  | fuel + 1, i, dom =>
    match list.get? i with
    | none => some dom
    | some e =>
      let dom1 := (render e).foldl (fun d node => appendChild d own node) dom
      if i + 1 < list.length then
        if present sep then
          linkLoop present own sep render list fuel (i + 1) (appendChild dom1 sep sepNode)
        else none
      else linkLoop present own sep render list fuel (i + 1) dom1

/-- One link block: `if (area) { list = ...; for (...) {...} }`, followed by
the statement that reads `list[0][...]` for the count, a `TypeError` (`none`)
on an empty list. -/
def linkBlock (present : Area → Bool) (own sep : Area) (render : Entry → List Node)
    (list : List Entry) (dom : Dom) : Option Dom :=
  (if present own then linkLoop present own sep render list list.length 0 dom
   else some dom).bind (fun d => if list.isEmpty then none else some d)

/-- The link lists of the report data. -/
structure LinkLists where
  thread_most_support : List Entry
  thread_most_oppose : List Entry
  reply_most_support : List Entry
  reply_most_oppose : List Entry
  reply_thread_most : List Entry
  thread_replies_most : List Entry
  thread_views_most : List Entry
  thread_favorite_most : List Entry
  forum_most_favorite : List Entry
  reply_user_most : List Entry

/-- The anchor of a thread entry whose title is field `k`. -/
def threadAnchor (k : Nat) (e : Entry) : List Node :=
  [Node.a (get_thread_link (e.field 0)) (e.field k)]

/-- The four nodes of a reply entry: thread anchor, `中的第`, post anchor, `楼`. -/
def replyNodes (e : Entry) : List Node :=
  [Node.a (get_thread_link (e.field 0)) (e.field 3), Node.span "中的第",
   Node.a (get_post_link (e.field 1)) (e.field 2), Node.span "楼"]

/-- The anchor of a forum entry. -/
def forumAnchor (e : Entry) : List Node :=
  [Node.a (get_forum_link (e.field 0)) (e.field 2)]

/-- The anchor of a user entry. -/
def userAnchor (e : Entry) : List Node :=
  [Node.a (get_user_link (e.field 0)) (e.field 0)]

/-- The ten link blocks of `generate_report` (lines 324 to 505), in source
order.  The separators of the last two blocks go to
`thread_favorite_most_link_area`, as lines 485 and 501 have it. -/
def generate_report.link_areas (present : Area → Bool) (data : LinkLists) (dom : Dom) :
    Option Dom :=
  (((((((((linkBlock present Area.thread_most_support_link_area
      Area.thread_most_support_link_area (threadAnchor 2) data.thread_most_support dom).bind
    (linkBlock present Area.thread_most_oppose_link_area
      Area.thread_most_oppose_link_area (threadAnchor 2) data.thread_most_oppose)).bind
    (linkBlock present Area.reply_most_support_link_area
      Area.reply_most_support_link_area replyNodes data.reply_most_support)).bind
    (linkBlock present Area.reply_most_oppose_link_area
      Area.reply_most_oppose_link_area replyNodes data.reply_most_oppose)).bind
    (linkBlock present Area.reply_thread_most_link_area
      Area.reply_thread_most_link_area (threadAnchor 1) data.reply_thread_most)).bind
    (linkBlock present Area.thread_replies_most_link_area
      Area.thread_replies_most_link_area (threadAnchor 1) data.thread_replies_most)).bind
    (linkBlock present Area.thread_views_most_link_area
      Area.thread_views_most_link_area (threadAnchor 1) data.thread_views_most)).bind
    (linkBlock present Area.thread_favorite_most_link_area
      Area.thread_favorite_most_link_area (threadAnchor 1) data.thread_favorite_most)).bind
    (linkBlock present Area.forum_most_favorite_link_area
      Area.thread_favorite_most_link_area forumAnchor data.forum_most_favorite)).bind
    (linkBlock present Area.reply_user_most_link_area
      Area.thread_favorite_most_link_area userAnchor data.reply_user_most)

/-- Report data with one entry in every link list but two forums in
`forum_most_favorite`. -/
def exampleLinks : LinkLists where
  thread_most_support := [["101", "0", "First thread", "0", "0", "9"]]
  thread_most_oppose := [["102", "0", "Second thread", "0", "0", "4"]]
  reply_most_support := [["103", "9001", "12", "Third thread", "0", "0", "7"]]
  reply_most_oppose := [["104", "9002", "5", "Fourth thread", "0", "0", "2"]]
  reply_thread_most := [["105", "Fifth thread", "30"]]
  thread_replies_most := [["106", "Sixth thread", "88"]]
  thread_views_most := [["107", "Seventh thread", "4000"]]
  thread_favorite_most := [["108", "Eighth thread", "16"]]
  forum_most_favorite := [["25", "40", "Water"], ["61", "12", "Market"]]
  reply_user_most := [["alice", "20"]]

/-- What the specification asks of a link area: the nodes of the entries in
input order, with one separator between consecutive entries. -/
def separated (render : Entry → List Node) (list : List Entry) : List Node :=
  [sepNode].intercalate (list.map render)

/-! ## The `Date` arithmetic agrees with the calendar -/

theorem DayFromYear_succ (y : Int) : DayFromYear (y + 1) = DayFromYear y + DaysInYear y := by
  unfold DayFromYear DaysInYear
  split_ifs <;> omega

theorem DayFromYear_bounds (y : Int) :
    146097 * (y - 1970) - 506 ≤ 400 * DayFromYear y ∧
      400 * DayFromYear y ≤ 146097 * (y - 1970) + 589 := by
  unfold DayFromYear
  omega

theorem DaysInYear_range (y : Int) : 365 ≤ DaysInYear y ∧ DaysInYear y ≤ 366 := by
  unfold DaysInYear
  split_ifs <;> omega

theorem Day_bounds (t : Int) : Day t * msPerDay ≤ t ∧ t < (Day t + 1) * msPerDay := by
  unfold Day msPerDay
  omega

theorem Day_mul (d : Int) : Day (d * msPerDay) = d := by
  unfold Day msPerDay
  omega

theorem DayFromYear_mono_add (y : Int) (k : Nat) : DayFromYear y ≤ DayFromYear (y + k) := by
  induction k with
  | zero => simp
  | succ k ih =>
    have h1 := DayFromYear_succ (y + k)
    have h2 := DaysInYear_range (y + k)
    have e : y + ((k + 1 : Nat) : Int) = y + k + 1 := by push_cast; ring
    rw [e]; omega

theorem DayFromYear_mono {y z : Int} (h : y ≤ z) : DayFromYear y ≤ DayFromYear z := by
  have h1 := DayFromYear_mono_add y (z - y).toNat
  have e : y + ((z - y).toNat : Int) = z := by omega
  rwa [e] at h1

/-- The computable `YearFromTime` meets the characterisation of ECMA-262: it is
a year `y` with `TimeFromYear(y) ≤ t < TimeFromYear(y + 1)`. -/
theorem YearFromTime_spec (t : Int) :
    TimeFromYear (YearFromTime t) ≤ t ∧ t < TimeFromYear (YearFromTime t + 1) := by
  have hd := Day_bounds t
  generalize hn : Day t = n at hd
  have hj1 : 146097 * (n * 400 / 146097) ≤ n * 400 := by omega
  have hj2 : n * 400 < 146097 * (n * 400 / 146097) + 146097 := by omega
  generalize hj : n * 400 / 146097 = j at hj1 hj2
  have b1 := DayFromYear_bounds (1970 + j - 1)
  have b2 := DayFromYear_bounds (1970 + j + 1 + 1)
  have s1 := DayFromYear_succ (1970 + j - 1)
  have s2 := DayFromYear_succ (1970 + j)
  have s3 := DayFromYear_succ (1970 + j + 1)
  have p1 := DaysInYear_range (1970 + j - 1)
  have p2 := DaysInYear_range (1970 + j)
  have p3 := DaysInYear_range (1970 + j + 1)
  unfold YearFromTime TimeFromYear
  simp only [hn, hj]
  have e1 : (1970 + j - 1 + 1) = 1970 + j := by ring
  rw [e1] at s1
  unfold msPerDay at *
  split_ifs with c1 c2
  · constructor
    · exact c1
    · generalize DayFromYear (1970 + j + 1 + 1) = a at *
      omega
  · constructor
    · exact c2
    · omega
  · constructor
    · generalize DayFromYear (1970 + j - 1) = a at *
      omega
    · rw [e1]; omega

/-- The year of the characterisation is unique, so `YearFromTime` is the
largest year that starts at or before `t`. -/
theorem YearFromTime_unique (t y : Int) (h1 : TimeFromYear y ≤ t)
    (h2 : t < TimeFromYear (y + 1)) : YearFromTime t = y := by
  have hs := YearFromTime_spec t
  generalize YearFromTime t = z at hs
  unfold TimeFromYear msPerDay at *
  by_contra hne
  rcases lt_or_gt_of_ne hne with h | h
  · have := DayFromYear_mono (show z + 1 ≤ y by omega)
    omega
  · have := DayFromYear_mono (show y + 1 ≤ z by omega)
    omega

theorem isLeapYear_eq_gregorianLeap (y : Int) :
    renderGreenWall.isLeapYear y = gregorianLeap y := by
  rw [Bool.eq_iff_iff]
  simp [renderGreenWall.isLeapYear, gregorianLeap, Int.dvd_iff_tmod_eq_zero]

theorem DaysInYear_eq (y : Int) : DaysInYear y = if gregorianLeap y then 366 else 365 := by
  unfold DaysInYear gregorianLeap
  simp only [Int.dvd_iff_emod_eq_zero, decide_eq_true_eq]
  split_ifs <;> omega

theorem daysInYear_cast (y : Int) : ((daysInYear y : Nat) : Int) = DaysInYear y := by
  rw [DaysInYear_eq, daysInYear, isLeapYear_eq_gregorianLeap]
  split_ifs <;> rfl

theorem daysInYear_eq (y : Int) : daysInYear y = if gregorianLeap y then 366 else 365 := by
  rw [daysInYear, isLeapYear_eq_gregorianLeap]

/-- Inside the range of `Date` and away from the two-digit years, day `i` of
the loop of step 1 is a valid date `i` days into year `year`. -/
theorem DateUTC_day (year : Int) (hlo : -271820 ≤ year) (hhi : year ≤ 275759)
    (hq : year < 0 ∨ 99 < year) (i : Int) (h0 : 0 ≤ i) (hi : i < DaysInYear year) :
    DateUTC year 0 (1 + i) = some ((DayFromYear year + i) * msPerDay) := by
  have hy : MakeFullYear year = year := by
    unfold MakeFullYear
    rw [if_neg (by omega)]
  have hr := DaysInYear_range year
  have hb : |(DayFromYear year + i) * msPerDay| ≤ 8640000000000000 := by
    rw [abs_le]
    unfold DayFromYear msPerDay
    constructor <;> omega
  unfold DateUTC TimeClip MakeDate MakeDay
  rw [hy]
  simp only [DaysBeforeMonth, Int.zero_ediv, Int.zero_emod, add_zero, if_true]
  have e : DayFromYear year + (1 + i) - 1 = DayFromYear year + i := by ring
  rw [e, if_neg (not_lt.mpr hb)]

theorem YearFromTime_day (year i : Int) (h0 : 0 ≤ i) (hi : i < DaysInYear year) :
    YearFromTime ((DayFromYear year + i) * msPerDay) = year := by
  apply YearFromTime_unique
  · unfold TimeFromYear msPerDay; omega
  · rw [TimeFromYear, DayFromYear_succ]; unfold msPerDay; omega

theorem DayWithinYear_day (year i : Int) (h0 : 0 ≤ i) (hi : i < DaysInYear year) :
    DayWithinYear ((DayFromYear year + i) * msPerDay) = i := by
  rw [DayWithinYear, YearFromTime_day year i h0 hi, Day_mul]; ring

theorem InLeapYear_day (year i : Int) (h0 : 0 ≤ i) (hi : i < DaysInYear year) :
    InLeapYear ((DayFromYear year + i) * msPerDay) = if gregorianLeap year then 1 else 0 := by
  rw [InLeapYear, YearFromTime_day year i h0 hi, DaysInYear_eq]
  split_ifs <;> simp_all


theorem monthDays_common :
    (List.range 365).map (fun i : Nat => (MonthFromDay i 0 + 1, DateFromDay i 0)) =
      monthDays false := by decide!

theorem monthDays_leap :
    (List.range 366).map (fun i : Nat => (MonthFromDay i 1 + 1, DateFromDay i 1)) =
      monthDays true := by decide!

theorem dailyCell_date (year : Int) (hlo : -271820 ≤ year) (hhi : year ≤ 275759)
    (hq : year < 0 ∨ 99 < year) (dataDict : String → Option Nat) (i : Nat)
    (hi : i < daysInYear year) :
    (dailyCell year dataDict i).date =
      some (year, MonthFromDay i (if gregorianLeap year then 1 else 0) + 1,
        DateFromDay i (if gregorianLeap year then 1 else 0)) := by
  have h0 : (0 : Int) ≤ i := Int.ofNat_nonneg i
  have hi2 : (i : Int) < DaysInYear year := by rw [← daysInYear_cast]; exact_mod_cast hi
  simp only [DayCell.date, dailyCell, DateUTC_day year hlo hhi hq i h0 hi2, MonthFromTime,
    DateFromTime, YearFromTime_day year i h0 hi2, DayWithinYear_day year i h0 hi2,
    InLeapYear_day year i h0 hi2]

/-- In the range of `Date` and away from the two-digit years, the cells of
step 1 carry the dates of the year in calendar order. -/
theorem dailyData_dates (year : Int) (hlo : -271820 ≤ year) (hhi : year ≤ 275759)
    (hq : year < 0 ∨ 99 < year) (dataDict : String → Option Nat) :
    (dailyData year dataDict).map DayCell.date = (calendarDates year).map some := by
  have h1 : (dailyData year dataDict).map DayCell.date =
      (List.range (daysInYear year)).map (fun i : Nat =>
        some (year, MonthFromDay i (if gregorianLeap year then 1 else 0) + 1,
          DateFromDay i (if gregorianLeap year then 1 else 0))) := by
    rw [dailyData, List.map_map]
    apply List.map_congr_left
    intro i hi
    exact dailyCell_date year hlo hhi hq dataDict i (List.mem_range.mp hi)
  rw [h1, calendarDates, daysInYear_eq]
  cases hl : gregorianLeap year
  · rw [← monthDays_common]
    simp [List.map_map, Function.comp_def]
  · rw [← monthDays_leap]
    simp [List.map_map, Function.comp_def]

/-! ## The shape of the grid -/

/-- The padding that the `while` loop adds to a week that starts at index `i`. -/
theorem padWeek_eq (i : Nat) (fuel : Nat) (week : List DayCell) (h : 7 - week.length ≤ fuel) :
    padWeek i fuel week =
      week ++ (List.range (7 - week.length)).map
        (fun k => emptyCell ((i + week.length + k) % 7)) := by
  induction fuel generalizing week with
  | zero =>
    have h7 : 7 - week.length = 0 := by omega
    simp [padWeek, h7]
  | succ fuel ih =>
    unfold padWeek
    split_ifs with hlt
    · rw [ih (week ++ [emptyCell ((i + week.length) % 7)]) (by simp; omega)]
      have e : 7 - week.length = (7 - (week.length + 1)) + 1 := by omega
      rw [e, List.range_succ_eq_map]
      simp only [List.length_append, List.length_singleton, List.map_cons, List.map_map,
        List.append_assoc, List.singleton_append, add_zero]
      congr 2
      apply List.map_congr_left
      intro k _
      simp only [Function.comp_apply]
      congr 2
      omega
    · have h7 : 7 - week.length = 0 := by omega
      simp [h7]

theorem slice_length (padded : List DayCell) (i : Nat) :
    (slice padded i (i + 7)).length = min (i + 7) padded.length - i := by
  simp [slice]

theorem weeksLoop_length7 (padded : List DayCell) (fuel i : Nat) :
    ∀ w ∈ weeksLoop padded fuel i, w.length = 7 := by
  induction fuel generalizing i with
  | zero => simp [weeksLoop]
  | succ fuel ih =>
    unfold weeksLoop
    split_ifs with hlt
    · intro w hw
      rcases List.mem_cons.mp hw with rfl | hw
      · rw [padWeek_eq i 7 _ (by omega)]
        simp only [List.length_append, List.length_map, List.length_range, slice_length]
        omega
      · exact ih (i + 7) w hw
    · simp

/-- The weeks from index `i` on, flattened, are the rest of `paddedData`
followed by the padding of the last week. -/
theorem weeksLoop_flatten (padded : List DayCell) (fuel i : Nat)
    (h : padded.length ≤ i + 7 * fuel) :
    (weeksLoop padded fuel i).flatten =
      padded.drop i ++ (List.range ((7 - (padded.length - i) % 7) % 7)).map
        (fun k => emptyCell ((padded.length + k) % 7)) := by
  induction fuel generalizing i with
  | zero =>
    have h0 : padded.length - i = 0 := by omega
    simp [weeksLoop, h0, List.drop_eq_nil_of_le (show padded.length ≤ i by omega)]
  | succ fuel ih =>
    unfold weeksLoop
    split_ifs with hlt
    · rw [List.flatten_cons, ih (i + 7) (by omega), padWeek_eq i 7 _ (by omega)]
      by_cases hfull : i + 7 ≤ padded.length
      · have hs : (slice padded i (i + 7)).length = 7 := by rw [slice_length]; omega
        have e1 : (padded.length - (i + 7)) % 7 = (padded.length - i) % 7 := by omega
        have e2 : slice padded i (i + 7) ++ padded.drop (i + 7) = padded.drop i := by
          rw [slice, List.drop_take, show i + 7 - i = 7 by omega]
          rw [show padded.drop (i + 7) = (padded.drop i).drop 7 by rw [List.drop_drop]]
          exact List.take_append_drop 7 _
        rw [hs, e1]
        simp only [Nat.sub_self, List.range_zero, List.map_nil, List.append_nil]
        rw [← List.append_assoc, e2]
      · have hs : slice padded i (i + 7) = padded.drop i := by
          rw [slice, List.take_of_length_le (by omega)]
        have hl : (padded.drop i).length = padded.length - i := List.length_drop i padded
        have e1 : padded.length - (i + 7) = 0 := by omega
        have e2 : (7 - (padded.length - i) % 7) % 7 = 7 - (padded.length - i) := by omega
        have e3 : padded.drop (i + 7) = [] := List.drop_eq_nil_of_le (by omega)
        rw [hs, hl, e1, e2, e3]
        simp only [Nat.zero_mod, Nat.sub_zero, Nat.mod_self, List.range_zero, List.map_nil,
          List.append_nil]
        congr 1
        apply List.map_congr_left
        intro k _
        congr 2
        omega
    · have h0 : padded.length - i = 0 := by omega
      simp [h0, List.drop_eq_nil_of_le (show padded.length ≤ i by omega)]

/-- The bound on the rounds in `buildWeeks` is enough: the flattened weeks are
all of `paddedData`, then the padding of the last week. -/
theorem buildWeeks_flatten (padded : List DayCell) :
    (buildWeeks padded).flatten = padded ++ tailPadding padded.length := by
  rw [buildWeeks, weeksLoop_flatten padded padded.length 0 (by omega)]
  simp [tailPadding]

theorem buildWeeks_length7 (padded : List DayCell) : ∀ w ∈ buildWeeks padded, w.length = 7 :=
  weeksLoop_length7 padded padded.length 0

theorem flatten_length7 (weeks : List (List DayCell)) (h : ∀ w ∈ weeks, w.length = 7) :
    weeks.flatten.length = 7 * weeks.length := by
  induction weeks with
  | nil => simp
  | cons w ws ih =>
    rw [List.flatten_cons, List.length_append, h w (List.mem_cons_self _ _),
      ih (fun v hv => h v (List.mem_cons_of_mem _ hv)), List.length_cons]
    omega

theorem tailPadding_length (n : Nat) : (tailPadding n).length = (7 - n % 7) % 7 := by
  simp [tailPadding]

theorem tailPadding_isEmpty (n : Nat) : ∀ c ∈ tailPadding n, c.isEmpty = true := by
  intro c hc
  simp only [tailPadding, List.mem_map] at hc
  obtain ⟨k, _, rfl⟩ := hc
  rfl

theorem dailyData_length (year : Int) (dataDict : String → Option Nat) :
    (dailyData year dataDict).length = daysInYear year := by
  simp [dailyData]

theorem dailyData_not_isEmpty (year : Int) (dataDict : String → Option Nat) :
    ∀ c ∈ dailyData year dataDict, c.isEmpty = false := by
  intro c hc
  simp only [dailyData, List.mem_map] at hc
  obtain ⟨k, _, rfl⟩ := hc
  rfl

theorem filter_eq_nil_of_isEmpty (l : List DayCell) (h : ∀ c ∈ l, c.isEmpty = true) :
    l.filter (fun c => !c.isEmpty) = [] := by
  rw [List.filter_eq_nil_iff]
  intro c hc
  simp [h c hc]

theorem filter_eq_self_of_real (l : List DayCell) (h : ∀ c ∈ l, c.isEmpty = false) :
    l.filter (fun c => !c.isEmpty) = l := by
  rw [List.filter_eq_self]
  intro c hc
  simp [h c hc]

/-- The non-padding cells of the grid are the cells of step 1, in order. -/
theorem realCells_buildWeeks (year : Int) (dataDict : String → Option Nat) :
    realCells (buildWeeks (paddedData year dataDict)) = dailyData year dataDict := by
  rw [realCells, buildWeeks_flatten, paddedData, List.filter_append, List.filter_append,
    filter_eq_nil_of_isEmpty _ (tailPadding_isEmpty _),
    filter_eq_self_of_real _ (dailyData_not_isEmpty year dataDict),
    filter_eq_nil_of_isEmpty]
  · simp
  · intro c hc
    simp only [List.mem_map] at hc
    obtain ⟨k, _, rfl⟩ := hc
    rfl

theorem monthLabelsFrom_isSome (weeks : List (List DayCell))
    (h : ∀ w ∈ weeks, ∀ c ∈ w, c.isEmpty = false → c.utcDate ≠ none)
    (colIndex : Nat) (lastMonth : Option Int) :
    ∃ labels, monthLabelsFrom weeks colIndex lastMonth = some labels := by
  induction weeks generalizing colIndex lastMonth with
  | nil => exact ⟨[], rfl⟩
  | cons w ws ih =>
    have ih2 := fun c l => ih (fun v hv => h v (List.mem_cons_of_mem _ hv)) c l
    unfold monthLabelsFrom
    cases hf : w.find? (fun c => !c.isEmpty) with
    | none => exact ih2 _ _
    | some firstValid =>
      have hm : firstValid ∈ w := List.mem_of_find?_eq_some hf
      have hp : firstValid.isEmpty = false := by
        have := List.find?_some hf
        simpa using this
      have hu := h w (List.mem_cons_self _ _) firstValid hm hp
      cases hd : firstValid.utcDate with
      | none => exact absurd hd hu
      | some tv =>
        simp only [hd]
        split_ifs
        · obtain ⟨ls, hls⟩ := ih2 (colIndex + 1) (getUTCMonth tv)
          rw [hls]
          exact ⟨_, rfl⟩
        · exact ih2 _ _

theorem mem_grid_cases (year : Int) (dataDict : String → Option Nat) (c : DayCell)
    (hc : c ∈ (buildWeeks (paddedData year dataDict)).flatten) :
    (∃ k, c = emptyCell k) ∨ (∃ i, c = dailyCell year dataDict i) := by
  rw [buildWeeks_flatten, paddedData] at hc
  simp only [List.mem_append, List.mem_map, tailPadding, dailyData] at hc
  rcases hc with (⟨k, _, rfl⟩ | ⟨i, _, rfl⟩) | ⟨k, _, rfl⟩
  · exact Or.inl ⟨k, rfl⟩
  · exact Or.inr ⟨i, rfl⟩
  · exact Or.inl ⟨_, rfl⟩

/-- With the container present `renderGreenWall` returns an SVG, whose weeks,
rectangles and month labels are those of steps 3, 5 and 6. -/
theorem renderGreenWall_svg (year : Int) (dataDict : String → Option Nat) :
    ∃ g, renderGreenWall true year dataDict = RenderResult.svg g ∧
      g.weeks = buildWeeks (paddedData year dataDict) ∧
      g.rects = rectsFrom g.weeks 0 ∧
      monthLabelsFrom g.weeks 0 (some (-1)) = some g.monthLabels := by
  have h : ∀ w ∈ buildWeeks (paddedData year dataDict), ∀ c ∈ w,
      c.isEmpty = false → c.utcDate ≠ none := by
    intro w hw c hc he
    rcases mem_grid_cases year dataDict c (List.mem_flatten.mpr ⟨w, hw, hc⟩) with
      ⟨k, rfl⟩ | ⟨i, rfl⟩
    · simp [emptyCell] at he
    · simp [dailyCell]
  obtain ⟨labels, hl⟩ := monthLabelsFrom_isSome _ h 0 (some (-1))
  refine ⟨GreenWall.mk (buildWeeks (paddedData year dataDict))
    (((buildWeeks (paddedData year dataDict)).length : Int) *
      (CELL_SIZE + CELL_SPACING) + leftMargin + 10)
    (7 * (CELL_SIZE + CELL_SPACING) + topMargin + 10)
    (rectsFrom (buildWeeks (paddedData year dataDict)) 0) labels, ?_, rfl, rfl, hl⟩
  simp only [renderGreenWall, Bool.not_true, Bool.false_eq_true, if_false, hl]

/-! ## C1: the dates of the grid -/

theorem chain_of_zip {α : Type} (R : α → α → Prop) (l : List α)
    (h : ∀ p ∈ l.zip l.tail, R p.1 p.2) : l.Chain' R := by
  induction l with
  | nil => exact List.chain'_nil
  | cons a t ih =>
    cases t with
    | nil => exact List.chain'_singleton a
    | cons b t =>
      rw [List.chain'_cons]
      refine ⟨h (a, b) (by simp), ih ?_⟩
      intro p hp
      exact h p (by
        simp only [List.tail_cons, List.zip_cons_cons, List.mem_cons]
        exact Or.inr hp)

/-- The (month, day) pairs of a year are strictly ascending: each one is below
its successor, and the order is transitive. -/
theorem monthDays_pairwise (leap : Bool) :
    (monthDays leap).Pairwise (fun a b => a.1 < b.1 ∨ (a.1 = b.1 ∧ a.2 < b.2)) := by
  have htrans : IsTrans (Int × Int) (fun a b => a.1 < b.1 ∨ (a.1 = b.1 ∧ a.2 < b.2)) :=
    ⟨fun a b c h1 h2 => by omega⟩
  rw [← List.chain'_iff_pairwise]
  apply chain_of_zip
  cases leap <;> decide!

theorem calendarDates_pairwise (y : Int) : (calendarDates y).Pairwise dateLt := by
  rw [calendarDates, List.pairwise_map]
  refine (monthDays_pairwise (gregorianLeap y)).imp ?_
  intro a b h
  simp only [dateLt, lt_self_iff_false, true_and, false_or]
  exact h

theorem calendarDates_year (y : Int) : ∀ dt ∈ calendarDates y, dt.1 = y := by
  intro dt h
  simp only [calendarDates, List.mem_map] at h
  obtain ⟨md, _, rfl⟩ := h
  rfl

/-- C1 (amended): for every year from -271820 to 275759 other than 0 to 99, the
non-padding cells of `renderGreenWall`, read week by week, carry exactly the
calendar dates of that year, each once, in ascending order, and no date of
another year. -/
theorem renderGreenWall_dates (year : Int) (hlo : -271820 ≤ year) (hhi : year ≤ 275759)
    (hq : year < 0 ∨ 99 < year) (dataDict : String → Option Nat) :
    ∃ g, renderGreenWall true year dataDict = RenderResult.svg g ∧
      (realCells g.weeks).map DayCell.date = (calendarDates year).map some ∧
      (calendarDates year).Pairwise dateLt ∧
      (∀ dt ∈ calendarDates year, dt.1 = year) := by
  obtain ⟨g, hg, hw, _, _⟩ := renderGreenWall_svg year dataDict
  refine ⟨g, hg, ?_, calendarDates_pairwise year, calendarDates_year year⟩
  rw [hw, realCells_buildWeeks, dailyData_dates year hlo hhi hq]

/-- Witness for C1: the year 2024 with the data of the call example. -/
theorem renderGreenWall_dates_witness :
    ∃ g, renderGreenWall true 2024 exampleData = RenderResult.svg g ∧
      (realCells g.weeks).map DayCell.date = (calendarDates 2024).map some ∧
      (calendarDates 2024).Pairwise dateLt ∧
      (∀ dt ∈ calendarDates 2024, dt.1 = 2024) :=
  renderGreenWall_dates 2024 (by decide) (by decide) (by decide) exampleData

set_option maxRecDepth 100000 in
theorem dailyData_300000_head :
    ((dailyData 300000 emptyData).map DayCell.date).head? = some none := by decide!

set_option maxRecDepth 100000 in
theorem calendarDates_300000_head :
    ((calendarDates 300000).map some).head? = some (some (300000, 1, 1)) := by decide!

set_option maxRecDepth 100000 in
/-- A two-digit year is read as 1900 plus that year by `Date.UTC`: the grid of
year 50 starts on 1950-01-01. -/
theorem dailyData_50_head :
    ((dailyData 50 emptyData).map DayCell.date).head? = some (some (1950, 1, 1)) := by decide!

/-- C1 fails for the year 300000, which is outside the range of `Date`: the
first non-padding cell carries an Invalid Date, not 300000-01-01. -/
theorem renderGreenWall_dates_counterexample :
    ¬ ∃ g, renderGreenWall true 300000 emptyData = RenderResult.svg g ∧
      (realCells g.weeks).map DayCell.date = (calendarDates 300000).map some := by
  rintro ⟨g, hg, hd⟩
  obtain ⟨g2, hg2, hw, _, _⟩ := renderGreenWall_svg 300000 emptyData
  rw [hg] at hg2
  cases hg2
  rw [hw, realCells_buildWeeks] at hd
  have h1 := dailyData_300000_head
  rw [hd, calendarDates_300000_head] at h1
  cases h1

/-! ## C4: the leading padding -/

theorem gregorianYearLength_eq (y : Int) : gregorianYearLength y = DaysInYear y := by
  rw [DaysInYear_eq, gregorianYearLength]

theorem sum_yearLength (y : Int) (n : Nat) :
    ((List.range n).map (fun k : Nat => gregorianYearLength (y + (k : Int)))).sum =
      DayFromYear (y + n) - DayFromYear y := by
  induction n with
  | zero => simp
  | succ n ih =>
    rw [List.range_succ, List.map_append, List.sum_append, ih]
    have e : y + ((n + 1 : Nat) : Int) = y + n + 1 := by push_cast; ring
    rw [e, DayFromYear_succ]
    simp only [List.map_cons, List.map_nil, List.sum_cons, List.sum_nil,
      gregorianYearLength_eq]
    ring

/-- Counting the days year by year from 1970 gives `DayFromYear`. -/
theorem daysSince1970_eq (y : Int) : daysSince1970 y = DayFromYear y := by
  have h0 : DayFromYear 1970 = 0 := by decide
  unfold daysSince1970
  split_ifs with h
  · rw [sum_yearLength, h0, show (1970 : Int) + ((y - 1970).toNat : Int) = y by omega]
    ring
  · rw [sum_yearLength, show y + ((1970 - y).toNat : Int) = 1970 by omega, h0]
    ring

theorem firstDayOfWeek_eq (year : Int) (hlo : -271820 ≤ year) (hhi : year ≤ 275759)
    (hq : year < 0 ∨ 99 < year) : firstDayOfWeek year = some (weekdayOfJan1 year) := by
  have hr := DaysInYear_range year
  have h := DateUTC_day year hlo hhi hq 0 (le_refl 0) (by omega)
  rw [show (1 : Int) + 0 = 1 by rfl, add_zero] at h
  rw [firstDayOfWeek, h, getUTCDay, Option.map_some', WeekDay, Day_mul, weekdayOfJan1,
    daysSince1970_eq, add_comm]

theorem leadingCount_le (year : Int) : leadingCount year ≤ 6 := by
  unfold leadingCount firstDayOfWeek getUTCDay
  cases DateUTC year 0 1 with
  | none => simp
  | some t =>
    simp only [Option.map_some', WeekDay]
    omega

theorem takeWhile_padding (n : Nat) (f : Nat → DayCell) (h : ∀ k, (f k).isEmpty = true)
    (c : DayCell) (rest : List DayCell) (hc : c.isEmpty = false) :
    (((List.range n).map f ++ c :: rest).takeWhile (fun c => c.isEmpty)).length = n := by
  have h1 : ∀ l : List DayCell, (∀ x ∈ l, x.isEmpty = true) →
      ((l ++ c :: rest).takeWhile (fun c => c.isEmpty)).length = l.length := by
    intro l
    induction l with
    | nil => intro _; simp [List.takeWhile, hc]
    | cons a l ih =>
      intro hl
      rw [List.cons_append, List.takeWhile_cons, if_pos (hl a (List.mem_cons_self _ _)),
        List.length_cons, List.length_cons, ih (fun x hx => hl x (List.mem_cons_of_mem _ hx))]
  have h2 := h1 ((List.range n).map f) (by
    intro x hx
    simp only [List.mem_map] at hx
    obtain ⟨k, _, rfl⟩ := hx
    exact h k)
  simpa using h2

theorem daysInYear_pos (year : Int) : 0 < daysInYear year := by
  unfold daysInYear
  split_ifs <;> decide

/-- The padding cells at the head of the grid are those pushed by step 2. -/
theorem leadingPadding_buildWeeks (year : Int) (dataDict : String → Option Nat) :
    leadingPadding (buildWeeks (paddedData year dataDict)) = leadingCount year := by
  have hne : dailyData year dataDict ≠ [] := by
    intro h
    have := dailyData_length year dataDict
    rw [h] at this
    have := daysInYear_pos year
    simp_all
  obtain ⟨c, rest, hcr⟩ := List.exists_cons_of_ne_nil hne
  have hc : c.isEmpty = false :=
    dailyData_not_isEmpty year dataDict c (by rw [hcr]; exact List.mem_cons_self _ _)
  rw [leadingPadding, buildWeeks_flatten, paddedData, hcr, List.append_assoc,
    List.cons_append]
  exact takeWhile_padding _ _ (fun _ => rfl) c _ hc

/-- C4 (amended): the number of leading padding cells is always in [0,6]; for
every year from -271820 to 275759 other than 0 to 99 it equals the Sunday-first
weekday index of January 1 of that year, and it is 0 exactly when January 1 is
a Sunday. -/
theorem leadingPadding_weekday (year : Int) (dataDict : String → Option Nat) :
    ∃ g, renderGreenWall true year dataDict = RenderResult.svg g ∧
      leadingPadding g.weeks ≤ 6 ∧
      (-271820 ≤ year → year ≤ 275759 → (year < 0 ∨ 99 < year) →
        ((leadingPadding g.weeks : Nat) : Int) = weekdayOfJan1 year ∧
        (leadingPadding g.weeks = 0 ↔ weekdayOfJan1 year = 0)) := by
  obtain ⟨g, hg, hw, _, _⟩ := renderGreenWall_svg year dataDict
  refine ⟨g, hg, ?_⟩
  rw [hw, leadingPadding_buildWeeks]
  refine ⟨leadingCount_le year, ?_⟩
  intro hlo hhi hq
  have h := firstDayOfWeek_eq year hlo hhi hq
  have hn : 0 ≤ weekdayOfJan1 year := by unfold weekdayOfJan1; omega
  unfold leadingCount
  generalize weekdayOfJan1 year = w at h hn
  simp only [h]
  have e : ((w.toNat : Nat) : Int) = w := Int.toNat_of_nonneg hn
  generalize w.toNat = n at e
  exact ⟨e, by omega⟩

/-- Witness for C4: 1 January 2024 was a Monday, so there is one padding cell. -/
theorem leadingPadding_weekday_witness :
    ∃ g, renderGreenWall true 2024 exampleData = RenderResult.svg g ∧
      ((leadingPadding g.weeks : Nat) : Int) = weekdayOfJan1 2024 ∧
      (leadingPadding g.weeks = 0 ↔ weekdayOfJan1 2024 = 0) := by
  obtain ⟨g, hg, _, h⟩ := leadingPadding_weekday 2024 exampleData
  exact ⟨g, hg, h (by decide) (by decide) (by decide)⟩

theorem weekdayOfJan1_300000 : weekdayOfJan1 300000 = 6 := by
  rw [weekdayOfJan1, daysSince1970_eq]
  decide

/-- C4 fails for the year 300000, outside the range of `Date`: 1 January
300000 is a Saturday (index 6) and the grid has no leading padding cell. -/
theorem leadingPadding_weekday_counterexample :
    ¬ ∃ g, renderGreenWall true 300000 emptyData = RenderResult.svg g ∧
      ((leadingPadding g.weeks : Nat) : Int) = weekdayOfJan1 300000 := by
  rintro ⟨g, hg, hd⟩
  obtain ⟨g2, hg2, hw, _, _⟩ := renderGreenWall_svg 300000 emptyData
  rw [hg] at hg2
  cases hg2
  rw [hw, leadingPadding_buildWeeks, weekdayOfJan1_300000] at hd
  have h0 : leadingCount 300000 = 0 := by decide
  rw [h0] at hd
  cases hd

/-! ## C5: weeks of seven cells -/

theorem ceil_div_seven (n w t : Nat) (h : 7 * w = n + t) (ht : t < 7) :
    w = ⌈((n : ℚ) / 7)⌉₊ := by
  symm
  rcases Nat.eq_zero_or_pos w with h0 | hpos
  · have hn : n = 0 := by omega
    subst h0
    subst hn
    simp
  · rw [Nat.ceil_eq_iff (by omega)]
    constructor
    · rw [lt_div_iff₀ (by norm_num)]
      have : (w - 1) * 7 < n := by omega
      exact_mod_cast this
    · rw [div_le_iff₀ (by norm_num)]
      have : n ≤ w * 7 := by omega
      exact_mod_cast this

/-- C5: every week has exactly 7 cells, there are
`ceil((daysInYear + leadingPadding) / 7)` weeks, the grid has 7 cells per week,
and what follows `paddedData` in the grid is fewer than 7 cells, all padding. -/
theorem weeks_of_seven (year : Int) (dataDict : String → Option Nat) :
    ∃ g, renderGreenWall true year dataDict = RenderResult.svg g ∧
      (∀ w ∈ g.weeks, w.length = 7) ∧
      g.weeks.length = ⌈(((daysInYear year + leadingPadding g.weeks : Nat) : ℚ) / 7)⌉₊ ∧
      g.weeks.flatten.length = 7 * g.weeks.length ∧
      ∃ tail, g.weeks.flatten = paddedData year dataDict ++ tail ∧
        (paddedData year dataDict).length = leadingPadding g.weeks + daysInYear year ∧
        (∀ c ∈ tail, c.isEmpty = true) ∧ tail.length < 7 := by
  obtain ⟨g, hg, hw, _, _⟩ := renderGreenWall_svg year dataDict
  have h7 : ∀ w ∈ g.weeks, w.length = 7 := by
    rw [hw]; exact buildWeeks_length7 _
  have hfl := flatten_length7 g.weeks h7
  have hlen : (paddedData year dataDict).length = leadingPadding g.weeks + daysInYear year := by
    rw [hw, leadingPadding_buildWeeks]
    simp [paddedData, dailyData_length]
  have hflat : g.weeks.flatten =
      paddedData year dataDict ++ tailPadding (paddedData year dataDict).length := by
    rw [hw, buildWeeks_flatten]
  have htl := tailPadding_length (paddedData year dataDict).length
  have ht : (tailPadding (paddedData year dataDict).length).length < 7 := by
    rw [htl]; omega
  refine ⟨g, hg, h7, ?_, hfl, _, hflat, hlen, tailPadding_isEmpty _, ht⟩
  apply ceil_div_seven _ _ (tailPadding (paddedData year dataDict).length).length _ ht
  rw [← hfl, hflat, List.length_append, hlen]
  omega

/-! ## C7: the leap-year rule -/

theorem gregorianLeap_iff (y : Int) :
    gregorianLeap y = true ↔ ((4 ∣ y ∧ ¬ 100 ∣ y) ∨ 400 ∣ y) := by
  simp [gregorianLeap]

theorem isLeapYear_some (y : Int) : isLeapYear (some y) = renderGreenWall.isLeapYear y := by
  rw [Bool.eq_iff_iff]
  simp [isLeapYear, jsRem, renderGreenWall.isLeapYear]

theorem realCells_length (year : Int) (dataDict : String → Option Nat) :
    ∃ g, renderGreenWall true year dataDict = RenderResult.svg g ∧
      (realCells g.weeks).length = daysInYear year := by
  obtain ⟨g, hg, hw, _, _⟩ := renderGreenWall_svg year dataDict
  exact ⟨g, hg, by rw [hw, realCells_buildWeeks, dailyData_length]⟩

/-- C7: both `isLeapYear` helpers are true exactly for the years divisible by
4 and not by 100, or divisible by 400; `getDaysInYear` and the number of real
cells of the grid are 366 for those years and 365 for the others; 2000 and
2024 give 366 real cells, 1900 and 2023 give 365. -/
theorem leap_year_rule (y : Int) (dataDict : String → Option Nat) :
    (renderGreenWall.isLeapYear y = true ↔ ((4 ∣ y ∧ ¬ 100 ∣ y) ∨ 400 ∣ y)) ∧
    (isLeapYear (some y) = true ↔ ((4 ∣ y ∧ ¬ 100 ∣ y) ∨ 400 ∣ y)) ∧
    getDaysInYear (some y) = (if (4 ∣ y ∧ ¬ 100 ∣ y) ∨ 400 ∣ y then 366 else 365) ∧
    (∃ g, renderGreenWall true y dataDict = RenderResult.svg g ∧
      (realCells g.weeks).length = if (4 ∣ y ∧ ¬ 100 ∣ y) ∨ 400 ∣ y then 366 else 365) ∧
    (∃ g, renderGreenWall true 2000 dataDict = RenderResult.svg g ∧
      (realCells g.weeks).length = 366) ∧
    (∃ g, renderGreenWall true 2024 dataDict = RenderResult.svg g ∧
      (realCells g.weeks).length = 366) ∧
    (∃ g, renderGreenWall true 1900 dataDict = RenderResult.svg g ∧
      (realCells g.weeks).length = 365) ∧
    (∃ g, renderGreenWall true 2023 dataDict = RenderResult.svg g ∧
      (realCells g.weeks).length = 365) := by
  have h1 : renderGreenWall.isLeapYear y = true ↔ ((4 ∣ y ∧ ¬ 100 ∣ y) ∨ 400 ∣ y) := by
    rw [isLeapYear_eq_gregorianLeap, gregorianLeap_iff]
  have hd : ∀ z : Int, daysInYear z = if (4 ∣ z ∧ ¬ 100 ∣ z) ∨ 400 ∣ z then 366 else 365 := by
    intro z
    rw [daysInYear_eq]
    by_cases hz : (4 ∣ z ∧ ¬ 100 ∣ z) ∨ 400 ∣ z
    · rw [if_pos hz, if_pos ((gregorianLeap_iff z).mpr hz)]
    · rw [if_neg hz, if_neg (fun h => hz ((gregorianLeap_iff z).mp h))]
  have hc : ∀ z : Int, ∃ g, renderGreenWall true z dataDict = RenderResult.svg g ∧
      (realCells g.weeks).length = if (4 ∣ z ∧ ¬ 100 ∣ z) ∨ 400 ∣ z then 366 else 365 := by
    intro z
    obtain ⟨g, hg, hl⟩ := realCells_length z dataDict
    exact ⟨g, hg, by rw [hl, hd z]⟩
  refine ⟨h1, by rw [isLeapYear_some]; exact h1, ?_, hc y, ?_, ?_, ?_, ?_⟩
  · rw [getDaysInYear, isLeapYear_some]
    by_cases hz : (4 ∣ y ∧ ¬ 100 ∣ y) ∨ 400 ∣ y
    · rw [if_pos hz, if_pos (h1.mpr hz)]
    · rw [if_neg hz, if_neg (fun h => hz (h1.mp h))]
  · obtain ⟨g, hg, hl⟩ := hc 2000
    exact ⟨g, hg, by rw [hl]; decide⟩
  · obtain ⟨g, hg, hl⟩ := hc 2024
    exact ⟨g, hg, by rw [hl]; decide⟩
  · obtain ⟨g, hg, hl⟩ := hc 1900
    exact ⟨g, hg, by rw [hl]; decide⟩
  · obtain ⟨g, hg, hl⟩ := hc 2023
    exact ⟨g, hg, by rw [hl]; decide⟩

/-! ## C2 and C8: the colour tiers -/

theorem getColor_cases (v : Nat) :
    (v = 0 ∧ getColor v = COLORS.getD 0 "") ∨
    (0 < v ∧ v ≤ 10 ∧ getColor v = COLORS.getD 1 "") ∨
    (10 < v ∧ v ≤ 20 ∧ getColor v = COLORS.getD 2 "") ∨
    (20 < v ∧ v ≤ 30 ∧ getColor v = COLORS.getD 3 "") ∨
    (30 < v ∧ v ≤ 50 ∧ getColor v = COLORS.getD 4 "") ∨
    (50 < v ∧ v ≤ 100 ∧ getColor v = COLORS.getD 5 "") ∨
    (100 < v ∧ v ≤ 150 ∧ getColor v = COLORS.getD 6 "") ∨
    (150 < v ∧ v ≤ 200 ∧ getColor v = COLORS.getD 7 "") ∨
    (200 < v ∧ v ≤ 300 ∧ getColor v = COLORS.getD 8 "") ∨
    (300 < v ∧ v ≤ 500 ∧ getColor v = COLORS.getD 9 "") ∨
    (500 < v ∧ v ≤ 1000 ∧ getColor v = COLORS.getD 10 "") ∨
    (1000 < v ∧ getColor v = "#000000") := by
  by_cases h0 : v = 0
  · left; exact ⟨h0, by rw [getColor, if_pos h0]⟩
  by_cases h1 : v ≤ 10
  · right; left; exact ⟨by omega, h1, by rw [getColor, if_neg h0, if_pos h1]⟩
  by_cases h2 : v ≤ 20
  · right; right; left; exact ⟨by omega, h2, by rw [getColor, if_neg h0, if_neg h1, if_pos h2]⟩
  by_cases h3 : v ≤ 30
  · right; right; right; left
    refine ⟨by omega, h3, ?_⟩
    rw [getColor, if_neg h0, if_neg h1, if_neg h2, if_pos h3]
  by_cases h4 : v ≤ 50
  · right; right; right; right; left
    refine ⟨by omega, h4, ?_⟩
    rw [getColor, if_neg h0, if_neg h1, if_neg h2, if_neg h3, if_pos h4]
  by_cases h5 : v ≤ 100
  · right; right; right; right; right; left
    refine ⟨by omega, h5, ?_⟩
    rw [getColor, if_neg h0, if_neg h1, if_neg h2, if_neg h3, if_neg h4, if_pos h5]
  by_cases h6 : v ≤ 150
  · right; right; right; right; right; right; left
    refine ⟨by omega, h6, ?_⟩
    rw [getColor, if_neg h0, if_neg h1, if_neg h2, if_neg h3, if_neg h4, if_neg h5, if_pos h6]
  by_cases h7 : v ≤ 200
  · right; right; right; right; right; right; right; left
    refine ⟨by omega, h7, ?_⟩
    rw [getColor, if_neg h0, if_neg h1, if_neg h2, if_neg h3, if_neg h4, if_neg h5, if_neg h6,
      if_pos h7]
  by_cases h8 : v ≤ 300
  · right; right; right; right; right; right; right; right; left
    refine ⟨by omega, h8, ?_⟩
    rw [getColor, if_neg h0, if_neg h1, if_neg h2, if_neg h3, if_neg h4, if_neg h5, if_neg h6,
      if_neg h7, if_pos h8]
  by_cases h9 : v ≤ 500
  · right; right; right; right; right; right; right; right; right; left
    refine ⟨by omega, h9, ?_⟩
    rw [getColor, if_neg h0, if_neg h1, if_neg h2, if_neg h3, if_neg h4, if_neg h5, if_neg h6,
      if_neg h7, if_neg h8, if_pos h9]
  by_cases h10 : v ≤ 1000
  · right; right; right; right; right; right; right; right; right; right; left
    refine ⟨by omega, h10, ?_⟩
    rw [getColor, if_neg h0, if_neg h1, if_neg h2, if_neg h3, if_neg h4, if_neg h5, if_neg h6,
      if_neg h7, if_neg h8, if_neg h9, if_pos h10]
  right; right; right; right; right; right; right; right; right; right; right
  refine ⟨by omega, ?_⟩
  rw [getColor, if_neg h0, if_neg h1, if_neg h2, if_neg h3, if_neg h4, if_neg h5, if_neg h6,
    if_neg h7, if_neg h8, if_neg h9, if_neg h10]

theorem tierIndex_cases (v : Nat) :
    (v = 0 ∧ tierIndex (getColor v) = 0) ∨
    (0 < v ∧ v ≤ 10 ∧ tierIndex (getColor v) = 1) ∨
    (10 < v ∧ v ≤ 20 ∧ tierIndex (getColor v) = 2) ∨
    (20 < v ∧ v ≤ 30 ∧ tierIndex (getColor v) = 3) ∨
    (30 < v ∧ v ≤ 50 ∧ tierIndex (getColor v) = 4) ∨
    (50 < v ∧ v ≤ 100 ∧ tierIndex (getColor v) = 5) ∨
    (100 < v ∧ v ≤ 150 ∧ tierIndex (getColor v) = 6) ∨
    (150 < v ∧ v ≤ 200 ∧ tierIndex (getColor v) = 7) ∨
    (200 < v ∧ v ≤ 300 ∧ tierIndex (getColor v) = 8) ∨
    (300 < v ∧ v ≤ 500 ∧ tierIndex (getColor v) = 9) ∨
    (500 < v ∧ v ≤ 1000 ∧ tierIndex (getColor v) = 10) ∨
    (1000 < v ∧ tierIndex (getColor v) = 11) := by
  rcases getColor_cases v with h | h | h | h | h | h | h | h | h | h | h | h
  · left
    refine ⟨h.1, ?_⟩
    rw [h.2]; decide
  · right; left
    refine ⟨h.1, h.2.1, ?_⟩
    rw [h.2.2]; decide
  · right; right; left
    refine ⟨h.1, h.2.1, ?_⟩
    rw [h.2.2]; decide
  · right; right; right; left
    refine ⟨h.1, h.2.1, ?_⟩
    rw [h.2.2]; decide
  · right; right; right; right; left
    refine ⟨h.1, h.2.1, ?_⟩
    rw [h.2.2]; decide
  · right; right; right; right; right; left
    refine ⟨h.1, h.2.1, ?_⟩
    rw [h.2.2]; decide
  · right; right; right; right; right; right; left
    refine ⟨h.1, h.2.1, ?_⟩
    rw [h.2.2]; decide
  · right; right; right; right; right; right; right; left
    refine ⟨h.1, h.2.1, ?_⟩
    rw [h.2.2]; decide
  · right; right; right; right; right; right; right; right; left
    refine ⟨h.1, h.2.1, ?_⟩
    rw [h.2.2]; decide
  · right; right; right; right; right; right; right; right; right; left
    refine ⟨h.1, h.2.1, ?_⟩
    rw [h.2.2]; decide
  · right; right; right; right; right; right; right; right; right; right; left
    refine ⟨h.1, h.2.1, ?_⟩
    rw [h.2.2]; decide
  · right; right; right; right; right; right; right; right; right; right; right
    refine ⟨h.1, ?_⟩
    rw [h.2]; decide

/-- C2: `getColor` follows the tier table: `COLORS[0]` for 0, `COLORS[1]` on
(0,10], `COLORS[2]` on (10,20], `COLORS[3]` on (20,30], `COLORS[4]` on (30,50],
`COLORS[5]` on (50,100], `COLORS[6]` on (100,150], `COLORS[7]` on (150,200],
`COLORS[8]` on (200,300], `COLORS[9]` on (300,500], `COLORS[10]` on (500,1000]
and `#000000` above 1000; there are 11 tier colours, and they and the overflow
colour are pairwise distinct. -/
theorem getColor_table (v : Nat) :
    (v = 0 → COLORS.get? 0 = some (getColor v)) ∧
    (0 < v ∧ v ≤ 10 → COLORS.get? 1 = some (getColor v)) ∧
    (10 < v ∧ v ≤ 20 → COLORS.get? 2 = some (getColor v)) ∧
    (20 < v ∧ v ≤ 30 → COLORS.get? 3 = some (getColor v)) ∧
    (30 < v ∧ v ≤ 50 → COLORS.get? 4 = some (getColor v)) ∧
    (50 < v ∧ v ≤ 100 → COLORS.get? 5 = some (getColor v)) ∧
    (100 < v ∧ v ≤ 150 → COLORS.get? 6 = some (getColor v)) ∧
    (150 < v ∧ v ≤ 200 → COLORS.get? 7 = some (getColor v)) ∧
    (200 < v ∧ v ≤ 300 → COLORS.get? 8 = some (getColor v)) ∧
    (300 < v ∧ v ≤ 500 → COLORS.get? 9 = some (getColor v)) ∧
    (500 < v ∧ v ≤ 1000 → COLORS.get? 10 = some (getColor v)) ∧
    (1000 < v → getColor v = "#000000") ∧
    COLORS.length = 11 ∧
    (COLORS ++ ["#000000"]).Nodup := by
  have hc : ∀ i, i < 11 → COLORS.get? i = some (COLORS.getD i "") := by decide
  rw [hc 0 (by decide), hc 1 (by decide), hc 2 (by decide), hc 3 (by decide),
    hc 4 (by decide), hc 5 (by decide), hc 6 (by decide), hc 7 (by decide),
    hc 8 (by decide), hc 9 (by decide), hc 10 (by decide)]
  have hv := getColor_cases v
  refine ⟨?_, ?_, ?_, ?_, ?_, ?_, ?_, ?_, ?_, ?_, ?_, ?_, by decide, by decide⟩ <;>
    intro h <;> try apply congrArg some
  all_goals
    rcases hv with hv | hv | hv | hv | hv | hv | hv | hv | hv | hv | hv | hv
    all_goals first
      | exact hv.2.2.symm
      | exact hv.2.symm
      | exact hv.2
      | omega

/-- Witness for C2: 419 posts fall in (300,500] and get `COLORS[9]`. -/
theorem getColor_table_witness : COLORS.get? 9 = some (getColor 419) :=
  (getColor_table 419).2.2.2.2.2.2.2.2.2.1 ⟨by decide, by decide⟩

/-- C8: `getColor` is monotonic in the tier order, and the values 0, 10, 11,
1000 and 1001 fall in tiers 0, 1, 2, 10 and overflow (11). -/
theorem getColor_monotonic (a b : Nat) (h : a < b) :
    tierIndex (getColor a) ≤ tierIndex (getColor b) ∧
    tierIndex (getColor 0) = 0 ∧ tierIndex (getColor 10) = 1 ∧
    tierIndex (getColor 11) = 2 ∧ tierIndex (getColor 1000) = 10 ∧
    tierIndex (getColor 1001) = 11 := by
  refine ⟨?_, by decide, by decide, by decide, by decide, by decide⟩
  have ha := tierIndex_cases a
  have hb := tierIndex_cases b
  generalize tierIndex (getColor a) = ta at ha
  generalize tierIndex (getColor b) = tb at hb
  omega

/-- Witness for C8: 10 and 11 posts. -/
theorem getColor_monotonic_witness :
    tierIndex (getColor 10) ≤ tierIndex (getColor 11) :=
  (getColor_monotonic 10 11 (by decide)).1

/-! ## C10: the reward tier -/

/-- C10, at the failing input: for the leap year 2024 and 366 days with posts
the reward block writes the near-miss reward, not the full-attendance one. -/
theorem summary_reward_leap_full :
    generate_report.summary_reward 2024 366 =
      { messageShown := true, reward := some "差点全勤奖" } := by
  decide

/-- In a common year the reward block follows the tiers on
`missing = 365 - post_days`. -/
theorem summary_reward_common (year post_days : Int) (hy : gregorianLeap year = false) :
    generate_report.summary_reward year post_days =
      if 365 - post_days < 90 then
        { messageShown := true
          reward := some (
            if 365 - post_days = 0 then "全勤奖"
            else if 365 - post_days ≤ 15 then "差点全勤奖"
            else if 365 - post_days ≤ 45 then "活跃奖"
            else "水水奖") }
      else { messageShown := false, reward := none } := by
  have h1 : getDaysInYear (some year) = 365 := by
    rw [getDaysInYear, isLeapYear_some, isLeapYear_eq_gregorianLeap, hy]; rfl
  have h2 : getDaysInYear none = 365 := by decide
  rw [generate_report.summary_reward, h1, h2]

/-! ## C9: the UID check of the page-load handler -/

/-- The UID check passes exactly for the positive integers. -/
theorem uid_check_iff (x : JSNumber) :
    (!x.isInteger || x.leZero) = false ↔ ∃ n : Int, 0 < n ∧ x = JSNumber.finite (n : ℚ) := by
  cases x with
  | nan => simp [JSNumber.isInteger]
  | infinity negative => simp [JSNumber.isInteger]
  | finite q =>
    simp only [JSNumber.isInteger, JSNumber.leZero, Bool.or_eq_false_iff, Bool.not_eq_false',
      decide_eq_false_iff_not, not_le, JSNumber.finite.injEq]
    constructor
    · rintro ⟨hi, hpos⟩
      have hden : q.den = 1 := by simpa [Rat.isInt] using hi
      have hq : ((q.num : Int) : ℚ) = q := Rat.den_eq_one_iff q |>.mp hden
      refine ⟨q.num, ?_, hq.symm⟩
      rw [← hq] at hpos
      exact_mod_cast hpos
    · rintro ⟨n, hn, rfl⟩
      refine ⟨by simp [Rat.isInt], ?_⟩
      exact_mod_cast hn

theorem afterFetch_request (uid : JSNumber) (response : Response) :
    (afterFetch uid response).request = some uid := by
  unfold afterFetch
  split <;> try rfl
  · split_ifs <;> rfl
  · split_ifs <;> rfl
  · split
    · rfl
    · split_ifs <;> rfl

/-- C9 (amended): when the element `#search_report` exists, the request is
issued exactly when `uid` is present, non-empty and its numeric value is a
positive integer; a `uid` whose numeric value is not a positive integer ends
with the error `UID 必须为正整数` and no request, and a missing or empty `uid`
ends with `未找到 UID 参数` and no request. -/
theorem handler_uid_check (uidStr : Option String) (toNumber : String → JSNumber)
    (server : JSNumber → Response) :
    ((handler true uidStr toNumber server).request.isSome = true ↔
      ∃ s, uidStr = some s ∧ s ≠ "" ∧
        ∃ n : Int, 0 < n ∧ toNumber s = JSNumber.finite (n : ℚ)) ∧
    (∀ s, uidStr = some s → s ≠ "" →
      (¬ ∃ n : Int, 0 < n ∧ toNumber s = JSNumber.finite (n : ℚ)) →
      (handler true uidStr toNumber server).innerHTML = some (errorView "UID 必须为正整数") ∧
      (handler true uidStr toNumber server).request = none) ∧
    (uidStr = none ∨ uidStr = some "" →
      (handler true uidStr toNumber server).innerHTML = some (errorView "未找到 UID 参数") ∧
      (handler true uidStr toNumber server).request = none) := by
  refine ⟨?_, ?_, ?_⟩
  · cases uidStr with
    | none => simp [handler, caught]
    | some s =>
      by_cases hs : s = ""
      · simp [handler, caught, hs]
      · by_cases hu : (!(toNumber s).isInteger || (toNumber s).leZero) = false
        · have hn := (uid_check_iff (toNumber s)).mp hu
          simp only [handler, Bool.not_true, Bool.false_eq_true, if_false, hs, hu,
            afterFetch_request, Option.isSome_some, true_iff]
          exact ⟨s, rfl, hs, hn⟩
        · have hn : ¬ ∃ n : Int, 0 < n ∧ toNumber s = JSNumber.finite (n : ℚ) :=
            fun h => hu ((uid_check_iff (toNumber s)).mpr h)
          have hu2 : (!(toNumber s).isInteger || (toNumber s).leZero) = true := by
            cases hb : (!(toNumber s).isInteger || (toNumber s).leZero)
            · exact absurd hb hu
            · rfl
          simp only [handler, Bool.not_true, Bool.false_eq_true, if_false, hs, hu2, if_true,
            caught, Option.isSome_none, false_iff]
          rintro ⟨t, ht, _, h⟩
          cases ht
          exact hn h
  · intro s hs hne hn
    subst hs
    have hu : (!(toNumber s).isInteger || (toNumber s).leZero) = true := by
      cases hb : (!(toNumber s).isInteger || (toNumber s).leZero)
      · exact absurd ((uid_check_iff (toNumber s)).mp hb) hn
      · rfl
    simp only [handler, Bool.not_true, Bool.false_eq_true, if_false, hne, hu, if_true, caught,
      and_self]
  · rintro (h | h) <;> subst h <;> simp [handler, caught]

/-- Witness for C9: `uid=-3`, whose numeric value is -3. -/
theorem handler_uid_check_witness :
    (handler true (some "-3") exampleNumber exampleServer).innerHTML =
      some (errorView "UID 必须为正整数") ∧
    (handler true (some "-3") exampleNumber exampleServer).request = none :=
  (handler_uid_check (some "-3") exampleNumber exampleServer).2.1 "-3" rfl (by decide)
    (by
      rintro ⟨n, hn, h⟩
      have h1 : exampleNumber "-3" = JSNumber.finite (-3) := by
        simp [exampleNumber]
      rw [h1] at h
      have h2 : ((-3 : Int) : ℚ) = (n : ℚ) := by
        have := JSNumber.finite.inj h
        rw [← this]; norm_num
      have h3 : (-3 : Int) = n := by exact_mod_cast h2
      omega)

/-- C9 fails when the element `#search_report` is missing: with `uid=5`,
present, non-empty and a positive integer, the handler shows an alert and sends
no request. -/
theorem handler_uid_check_counterexample :
    ¬ ((handler false (some "5") exampleNumber exampleServer).request.isSome = true ↔
        ∃ s, some "5" = some s ∧ s ≠ "" ∧
          ∃ n : Int, 0 < n ∧ exampleNumber s = JSNumber.finite (n : ℚ)) := by
  intro h
  have h1 : (handler false (some "5") exampleNumber exampleServer).request.isSome = false :=
    rfl
  rw [h1] at h
  have h2 := h.mpr ⟨"5", rfl, by decide, 5, by decide, by simp [exampleNumber]⟩
  cases h2

/-! ## C3: values and colours of the cells -/

theorem rectsFrom_fill (weeks : List (List DayCell)) (colIndex : Nat) :
    (rectsFrom weeks colIndex).map Rect.fill = weeks.flatten.map (fun c => getColor c.value) := by
  induction weeks generalizing colIndex with
  | nil => rfl
  | cons w ws ih =>
    rw [rectsFrom, List.map_append, ih, List.flatten_cons, List.map_append, List.map_map]
    rfl

theorem dailyCell_value (year : Int) (counts : String → Option Nat) (i : Nat) :
    (dailyCell year counts i).utcDate = some (DateUTC year 0 (1 + (i : Int))) ∧
    (dailyCell year counts i).mmdd = some (mmddKey (DateUTC year 0 (1 + (i : Int)))) ∧
    (∀ n, counts (mmddKey (DateUTC year 0 (1 + (i : Int)))) = some n →
      (dailyCell year counts i).value = n) ∧
    (counts (mmddKey (DateUTC year 0 (1 + (i : Int)))) = none →
      (dailyCell year counts i).value = 0) := by
  refine ⟨rfl, rfl, ?_, ?_⟩
  · intro n hn
    simp only [dailyCell]
    have hk :
        padStart (jsString (Option.map (fun x => x + 1)
          (getUTCMonth (DateUTC year 0 (1 + (i : Int)))))) 2 '0' ++ "-" ++
          padStart (jsString (getUTCDate (DateUTC year 0 (1 + (i : Int))))) 2 '0' =
        mmddKey (DateUTC year 0 (1 + (i : Int))) := rfl
    rw [hk, hn]
    simp only []
    split_ifs with h0
    · exact h0.symm
    · rfl
  · intro hn
    simp only [dailyCell]
    have hk :
        padStart (jsString (Option.map (fun x => x + 1)
          (getUTCMonth (DateUTC year 0 (1 + (i : Int)))))) 2 '0' ++ "-" ++
          padStart (jsString (getUTCDate (DateUTC year 0 (1 + (i : Int))))) 2 '0' =
        mmddKey (DateUTC year 0 (1 + (i : Int))) := rfl
    rw [hk, hn]

set_option maxRecDepth 100000 in
theorem dailyData_example_head :
    ((dailyData 2024 exampleData).map
        (fun c => (c.isoDate, c.value, getColor c.value))).take 3 =
      [(some "2024-01-01", 419, "#cd0000"), (some "2024-01-02", 0, "#ebedf0"),
       (some "2024-01-03", 74, "#ffd700")] := by decide!

set_option maxRecDepth 100000 in
theorem dailyData_example_rest :
    ∀ c ∈ (dailyData 2024 exampleData).drop 3, c.value = 0 := by decide!

/-- C3: for every year and every data mapping, a padding cell has value 0, a
non-padding cell has the count stored under its zero-padded `MM-DD` key, or 0
when the key is absent, and the rectangle of each cell is filled with
`getColor(value)`.  For 2024 and the data of the call example, 2024-01-01 has
value 419 and the colour of tier 9, 2024-01-02 value 0 and the colour of tier
0, 2024-01-03 value 74 and the colour of tier 5, and all other days value 0. -/
theorem cell_values (year : Int) (counts : String → Option Nat) :
    (∃ g, renderGreenWall true year counts = RenderResult.svg g ∧
      (∀ c ∈ g.weeks.flatten,
        (c.isEmpty = true → c.value = 0) ∧
        (c.isEmpty = false → ∃ tv, c.utcDate = some tv ∧ c.mmdd = some (mmddKey tv) ∧
          (∀ n, counts (mmddKey tv) = some n → c.value = n) ∧
          (counts (mmddKey tv) = none → c.value = 0))) ∧
      g.rects.map Rect.fill = g.weeks.flatten.map (fun c => getColor c.value)) ∧
    (∃ g, renderGreenWall true 2024 exampleData = RenderResult.svg g ∧
      ((realCells g.weeks).map (fun c => (c.isoDate, c.value, getColor c.value))).take 3 =
        [(some "2024-01-01", 419, "#cd0000"), (some "2024-01-02", 0, "#ebedf0"),
         (some "2024-01-03", 74, "#ffd700")] ∧
      COLORS.get? 9 = some "#cd0000" ∧ COLORS.get? 0 = some "#ebedf0" ∧
      COLORS.get? 5 = some "#ffd700" ∧
      (∀ c ∈ (realCells g.weeks).drop 3, c.value = 0)) := by
  constructor
  · obtain ⟨g, hg, hw, hr, _⟩ := renderGreenWall_svg year counts
    refine ⟨g, hg, ?_, by rw [hr, rectsFrom_fill]⟩
    intro c hc
    rw [hw] at hc
    rcases mem_grid_cases year counts c hc with ⟨k, rfl⟩ | ⟨i, rfl⟩
    · exact ⟨fun _ => rfl, fun h => by simp [emptyCell] at h⟩
    · exact ⟨fun h => by simp [dailyCell] at h, fun _ => ⟨_, dailyCell_value year counts i⟩⟩
  · obtain ⟨g, hg, hw, _, _⟩ := renderGreenWall_svg 2024 exampleData
    refine ⟨g, hg, ?_, by decide, by decide, by decide, ?_⟩
    · rw [hw, realCells_buildWeeks]; exact dailyData_example_head
    · rw [hw, realCells_buildWeeks]; exact dailyData_example_rest

/-! ## C6: the month labels of 2024 -/

theorem padWeek_shape (i fuel : Nat) (week : List DayCell) :
    (padWeek i fuel week).map DayCell.shape = padWeek i fuel (week.map DayCell.shape) := by
  induction fuel generalizing week with
  | zero => rfl
  | succ fuel ih =>
    unfold padWeek
    rw [List.length_map]
    split_ifs
    · rw [ih, List.map_append]; rfl
    · rfl

theorem weeksLoop_shape (padded : List DayCell) (fuel i : Nat) :
    (weeksLoop padded fuel i).map (List.map DayCell.shape) =
      weeksLoop (padded.map DayCell.shape) fuel i := by
  induction fuel generalizing i with
  | zero => rfl
  | succ fuel ih =>
    unfold weeksLoop
    rw [List.length_map]
    split_ifs
    · rw [List.map_cons, ih, padWeek_shape]
      simp [slice, List.map_drop, List.map_take]
    · rfl

/-- The grid of any data, with the counts forgotten, is the grid of the empty
data. -/
theorem buildWeeks_shape (year : Int) (dataDict : String → Option Nat) :
    (buildWeeks (paddedData year dataDict)).map (List.map DayCell.shape) =
      buildWeeks (paddedData year emptyData) := by
  have h : (paddedData year dataDict).map DayCell.shape = paddedData year emptyData := by
    simp only [paddedData, dailyData, List.map_append, List.map_map]
    congr 1
  rw [buildWeeks, weeksLoop_shape, h]
  have hl : (paddedData year dataDict).length = (paddedData year emptyData).length := by
    simp [paddedData, dailyData]
  rw [hl, buildWeeks]

theorem find_shape (week : List DayCell) :
    (week.map DayCell.shape).find? (fun c => !c.isEmpty) =
      (week.find? (fun c => !c.isEmpty)).map DayCell.shape := by
  induction week with
  | nil => rfl
  | cons c cs ih =>
    rw [List.map_cons, List.find?_cons, List.find?_cons]
    have hc : (DayCell.shape c).isEmpty = c.isEmpty := rfl
    rw [hc]
    cases c.isEmpty
    · rfl
    · simpa using ih

theorem firstRealMonth_shape (week : List DayCell) :
    firstRealMonth (week.map DayCell.shape) = firstRealMonth week := by
  rw [firstRealMonth, find_shape, firstRealMonth]
  cases week.find? (fun c => !c.isEmpty) <;> rfl

theorem monthLabelsFrom_shape (weeks : List (List DayCell)) (colIndex : Nat)
    (lastMonth : Option Int) :
    monthLabelsFrom (weeks.map (List.map DayCell.shape)) colIndex lastMonth =
      monthLabelsFrom weeks colIndex lastMonth := by
  induction weeks generalizing colIndex lastMonth with
  | nil => rfl
  | cons w ws ih =>
    rw [List.map_cons, monthLabelsFrom, monthLabelsFrom, find_shape]
    cases w.find? (fun c => !c.isEmpty) with
    | none => exact ih _ _
    | some c =>
      simp only [Option.map_some']
      have hc : (DayCell.shape c).utcDate = c.utcDate := rfl
      rw [hc]
      cases c.utcDate with
      | none => rfl
      | some tv => simp only [ih]

theorem findIdx_shape (weeks : List (List DayCell)) (dt : Int × Int × Int) :
    columnOfDate (weeks.map (List.map DayCell.shape)) dt = columnOfDate weeks dt := by
  unfold columnOfDate
  rw [List.findIdx?_map]
  congr 1
  funext w
  simp only [Function.comp_apply, List.any_map]
  rfl

set_option maxRecDepth 100000 in
theorem monthLabels_2024_empty :
    monthLabelsFrom (buildWeeks (paddedData 2024 emptyData)) 0 (some (-1)) =
      some [⟨0, 32, some "Jan"⟩, ⟨5, 102, some "Feb"⟩, ⟨9, 158, some "Mar"⟩,
        ⟨14, 228, some "Apr"⟩, ⟨18, 284, some "May"⟩, ⟨22, 340, some "Jun"⟩,
        ⟨27, 410, some "Jul"⟩, ⟨31, 466, some "Aug"⟩, ⟨35, 522, some "Sep"⟩,
        ⟨40, 592, some "Oct"⟩, ⟨44, 648, some "Nov"⟩, ⟨48, 704, some "Dec"⟩] := by
  decide!

set_option maxRecDepth 100000 in
theorem firstRealMonth_2024_empty :
    (List.range 12).map (fun m : Nat =>
        ((buildWeeks (paddedData 2024 emptyData)).map firstRealMonth).indexOf
          (some ((m + 1 : Nat) : Int))) =
      [0, 5, 9, 14, 18, 22, 27, 31, 35, 40, 44, 48] := by
  decide!

set_option maxRecDepth 100000 in
theorem columnOfDate_2024_empty :
    (List.range 12).map (fun m : Nat =>
        columnOfDate (buildWeeks (paddedData 2024 emptyData)) (2024, ((m + 1 : Nat) : Int), 1)) =
      [some 0, some 4, some 8, some 13, some 17, some 21, some 26, some 30, some 35,
       some 39, some 43, some 48] := by
  decide!

/-- For 2024 the labels, the months of the first real cells and the columns of
the dates do not depend on the data. -/
theorem grid_2024 (dataDict : String → Option Nat) :
    ∃ g, renderGreenWall true 2024 dataDict = RenderResult.svg g ∧
      some g.monthLabels = monthLabelsFrom (buildWeeks (paddedData 2024 emptyData)) 0 (some (-1)) ∧
      g.weeks.map firstRealMonth = (buildWeeks (paddedData 2024 emptyData)).map firstRealMonth ∧
      (∀ dt, columnOfDate g.weeks dt =
        columnOfDate (buildWeeks (paddedData 2024 emptyData)) dt) := by
  obtain ⟨g, hg, hw, _, hl⟩ := renderGreenWall_svg 2024 dataDict
  have hs := buildWeeks_shape 2024 dataDict
  rw [← hw] at hs
  refine ⟨g, hg, ?_, ?_, ?_⟩
  · rw [← hs, monthLabelsFrom_shape, hl]
  · rw [← hs, List.map_map]
    apply List.map_congr_left
    intro w _
    exact (firstRealMonth_shape w).symm
  · intro dt
    rw [← hs, findIdx_shape]

/-- C6 (amended): for 2024 and any data there are exactly 12 month labels, Jan
to Dec, in strictly increasing column order (columns 0, 5, 9, 14, 18, 22, 27,
31, 35, 40, 44, 48, at `x = 14 * column + 32`); the label of a month is at the
first column whose first non-padding cell lies in that month.  The first days
of the months are in columns 0, 4, 8, 13, 17, 21, 26, 30, 35, 39, 43, 48: the
label is at the column of the first day for January, September and December,
and one column after it for the other months. -/
theorem month_labels_2024 (dataDict : String → Option Nat) :
    ∃ g, renderGreenWall true 2024 dataDict = RenderResult.svg g ∧
      g.monthLabels.map (fun l => l.text) = MONTH_LABELS.map some ∧
      g.monthLabels.map (fun l => l.colIndex) = [0, 5, 9, 14, 18, 22, 27, 31, 35, 40, 44, 48] ∧
      (g.monthLabels.map (fun l => l.colIndex)).Pairwise (fun a b => a < b) ∧
      (∀ l ∈ g.monthLabels, l.x = (l.colIndex : Int) * 14 + 32) ∧
      (List.range 12).map (fun m : Nat =>
          (g.weeks.map firstRealMonth).indexOf (some ((m + 1 : Nat) : Int))) =
        g.monthLabels.map (fun l => l.colIndex) ∧
      (List.range 12).map (fun m : Nat =>
          columnOfDate g.weeks (2024, ((m + 1 : Nat) : Int), 1)) =
        [some 0, some 4, some 8, some 13, some 17, some 21, some 26, some 30, some 35,
         some 39, some 43, some 48] := by
  obtain ⟨g, hg, hl, hf, hc⟩ := grid_2024 dataDict
  rw [monthLabels_2024_empty] at hl
  have hl2 := Option.some.inj hl
  refine ⟨g, hg, ?_, ?_, ?_, ?_, ?_, ?_⟩
  · rw [hl2]; decide
  · rw [hl2]; decide
  · rw [hl2]; decide
  · rw [hl2]; decide
  · rw [hf, firstRealMonth_2024_empty, hl2]; decide
  · simp only [hc]
    exact columnOfDate_2024_empty

/-- C6 fails as stated: for 2024 the label `Feb` is at column 5, while
2024-02-01 is in column 4. -/
theorem month_labels_2024_counterexample :
    ¬ ∃ g, renderGreenWall true 2024 emptyData = RenderResult.svg g ∧
      g.monthLabels.length = 12 ∧
      (g.monthLabels.map (fun l => l.colIndex)).Pairwise (fun a b => a < b) ∧
      ∀ m : Nat, m < 12 → ∃ l, g.monthLabels.get? m = some l ∧
        l.text = MONTH_LABELS.get? m ∧
        columnOfDate g.weeks (2024, ((m + 1 : Nat) : Int), 1) = some l.colIndex := by
  rintro ⟨g, hg, _, _, h⟩
  obtain ⟨g2, hg2, hl, _, hc⟩ := grid_2024 emptyData
  rw [hg] at hg2
  cases hg2
  rw [monthLabels_2024_empty] at hl
  have hl2 := Option.some.inj hl
  obtain ⟨l, h1, _, h3⟩ := h 1 (by decide)
  rw [hl2] at h1
  have h4 : l.colIndex = 5 := by
    have := Option.some.inj h1
    rw [← this]
  have h5 := congrArg (fun xs => xs.get? 1) columnOfDate_2024_empty
  simp only [hc] at h3
  rw [h4] at h3
  simp only [List.range, List.range.loop, List.map_cons, List.get?_cons_succ,
    List.get?_cons_zero] at h5
  rw [h3] at h5
  cases h5

/-! ## C11: the rows of the cells -/

/-- In the range of `Date`, day `i` of the loop of step 1 is a valid date,
`i` days after January 1 of the year that `Date.UTC` reads. -/
theorem DateUTC_valid (year : Int) (hlo : -271820 ≤ year) (hhi : year ≤ 275759)
    (i : Int) (h0 : 0 ≤ i) (hi : i ≤ 366) :
    DateUTC year 0 (1 + i) = some ((DayFromYear (MakeFullYear year) + i) * msPerDay) := by
  have hb : |(DayFromYear (MakeFullYear year) + i) * msPerDay| ≤ 8640000000000000 := by
    rw [abs_le]
    unfold MakeFullYear DayFromYear msPerDay
    split_ifs <;> constructor <;> omega
  unfold DateUTC TimeClip MakeDate MakeDay
  simp only [DaysBeforeMonth, Int.zero_ediv, Int.zero_emod, add_zero, if_true]
  have e : DayFromYear (MakeFullYear year) + (1 + i) - 1 = DayFromYear (MakeFullYear year) + i := by
    ring
  rw [e, if_neg (not_lt.mpr hb)]

theorem daysInYear_le (year : Int) : daysInYear year ≤ 366 := by
  unfold daysInYear
  split_ifs <;> decide

theorem leadingCount_valid (year : Int) (hlo : -271820 ≤ year) (hhi : year ≤ 275759) :
    ((leadingCount year : Nat) : Int) = (DayFromYear (MakeFullYear year) + 4) % 7 := by
  have h := DateUTC_valid year hlo hhi 0 (le_refl 0) (by decide)
  rw [show (1 : Int) + 0 = 1 by rfl, add_zero] at h
  unfold leadingCount firstDayOfWeek
  rw [h]
  simp only [getUTCDay, Option.map_some', WeekDay, Day_mul]
  exact Int.toNat_of_nonneg (by omega)

theorem dailyCell_dayOfWeek (year : Int) (hlo : -271820 ≤ year) (hhi : year ≤ 275759)
    (dataDict : String → Option Nat) (i : Nat) (hi : i < daysInYear year) :
    (dailyCell year dataDict i).dayOfWeek =
      some (((leadingCount year + i) % 7 : Nat) : Int) := by
  have hl := leadingCount_valid year hlo hhi
  have hd := daysInYear_le year
  have h := DateUTC_valid year hlo hhi i (Int.ofNat_nonneg i) (by omega)
  simp only [dailyCell, h, getUTCDay, Option.map_some', WeekDay, Day_mul]
  congr 1
  omega

/-- In the range of `Date`, the cell at index `n` of `paddedData` has
`dayOfWeek = n % 7`. -/
theorem paddedData_dayOfWeek (year : Int) (hlo : -271820 ≤ year) (hhi : year ≤ 275759)
    (dataDict : String → Option Nat) :
    (paddedData year dataDict).map DayCell.dayOfWeek =
      (List.range (leadingCount year + daysInYear year)).map
        (fun n : Nat => some (((n % 7 : Nat)) : Int)) := by
  have hc := leadingCount_le year
  rw [paddedData, List.map_append, List.range_add, List.map_append, List.map_map,
    List.map_map, dailyData, List.map_map]
  congr 1
  · apply List.map_congr_left
    intro k hk
    have hk2 := List.mem_range.mp hk
    simp only [Function.comp_apply, emptyCell]
    rw [Nat.mod_eq_of_lt (by omega)]
  · apply List.map_congr_left
    intro i hi
    simp only [Function.comp_apply]
    exact dailyCell_dayOfWeek year hlo hhi dataDict i (List.mem_range.mp hi)

theorem paddedData_length (year : Int) (dataDict : String → Option Nat) :
    (paddedData year dataDict).length = leadingCount year + daysInYear year := by
  simp [paddedData, dailyData_length]

/-- In the range of `Date`, the cell at index `n` of the flattened grid has
`dayOfWeek = n % 7`. -/
theorem grid_dayOfWeek (year : Int) (hlo : -271820 ≤ year) (hhi : year ≤ 275759)
    (dataDict : String → Option Nat) :
    (buildWeeks (paddedData year dataDict)).flatten.map DayCell.dayOfWeek =
      (List.range (7 * (buildWeeks (paddedData year dataDict)).length)).map
        (fun n : Nat => some (((n % 7 : Nat)) : Int)) := by
  have hfl := flatten_length7 _ (buildWeeks_length7 (paddedData year dataDict))
  rw [buildWeeks_flatten, List.length_append, tailPadding_length, paddedData_length] at hfl
  rw [← hfl, buildWeeks_flatten, List.map_append, paddedData_dayOfWeek year hlo hhi,
    paddedData_length, tailPadding]
  generalize leadingCount year + daysInYear year = N
  rw [List.range_add N, List.map_append, List.map_map, List.map_map]
  rfl

/-- When the cell at index `n` of the flattened grid has `dayOfWeek = n % 7` and
all weeks have 7 cells, the cells of each week have `dayOfWeek` 0 to 6. -/
theorem week_rows (weeks : List (List DayCell)) (h7 : ∀ w ∈ weeks, w.length = 7)
    (hD : weeks.flatten.map DayCell.dayOfWeek =
      (List.range (7 * weeks.length)).map (fun n : Nat => some (((n % 7 : Nat)) : Int))) :
    ∀ w ∈ weeks, w.map DayCell.dayOfWeek = (List.range 7).map (fun k : Nat => some (k : Int)) := by
  induction weeks with
  | nil => simp
  | cons w ws ih =>
    have hw : w.length = 7 := h7 w (List.mem_cons_self _ _)
    rw [List.flatten_cons, List.map_append, List.length_cons,
      show 7 * (ws.length + 1) = 7 + 7 * ws.length by ring, List.range_add,
      List.map_append, List.map_map] at hD
    obtain ⟨h1, h2⟩ := List.append_inj hD (by simp [hw])
    intro v hv
    rcases List.mem_cons.mp hv with rfl | hv
    · rw [h1]
      apply List.map_congr_left
      intro k hk
      have := List.mem_range.mp hk
      rw [Nat.mod_eq_of_lt this]
    · refine ih (fun u hu => h7 u (List.mem_cons_of_mem _ hu)) ?_ v hv
      rw [h2]
      apply List.map_congr_left
      intro n _
      simp only [Function.comp_apply]
      rw [Nat.add_mod_left]

/-- When the cells of each week have `dayOfWeek` 0 to 6, rectangle `n` of the
columns from `colIndex` on is at column `colIndex + n / 7`, row `n % 7`. -/
theorem rectsFrom_xy (weeks : List (List DayCell)) (colIndex : Nat)
    (hrow : ∀ w ∈ weeks,
      w.map DayCell.dayOfWeek = (List.range 7).map (fun k : Nat => some (k : Int))) :
    (rectsFrom weeks colIndex).map (fun r => (r.x, r.y)) =
      (List.range (7 * weeks.length)).map (fun n : Nat =>
        ((((colIndex + n / 7 : Nat)) : Int) * 14 + 32, some (((n % 7 : Nat) : Int) * 14 + 20))) := by
  induction weeks generalizing colIndex with
  | nil => rfl
  | cons w ws ih =>
    have hw := hrow w (List.mem_cons_self _ _)
    have h1 : (w.map (cellRect colIndex)).map (fun r => (r.x, r.y)) =
        (w.map DayCell.dayOfWeek).map
          (fun d => ((colIndex : Int) * 14 + 32, d.map (fun k => k * 14 + 20))) := by
      rw [List.map_map, List.map_map]
      rfl
    rw [rectsFrom, List.map_append, h1, hw, ih (colIndex + 1)
      (fun u hu => hrow u (List.mem_cons_of_mem _ hu)), List.length_cons,
      show 7 * (ws.length + 1) = 7 + 7 * ws.length by ring, List.range_add,
      List.map_append, List.map_map, List.map_map]
    have h2 : (List.range 7).map
          ((fun d => ((colIndex : Int) * 14 + 32, Option.map (fun k => k * 14 + 20) d)) ∘
            fun k : Nat => some (k : Int)) =
        (List.range 7).map (fun n : Nat =>
          ((((colIndex + n / 7 : Nat)) : Int) * 14 + 32,
            some (((n % 7 : Nat) : Int) * 14 + 20))) := by
      apply List.map_congr_left
      intro k hk
      have hk2 := List.mem_range.mp hk
      simp only [Function.comp_apply, Option.map_some']
      rw [Nat.div_eq_of_lt hk2, Nat.mod_eq_of_lt hk2, Nat.add_zero]
    have h3 : (List.range (7 * ws.length)).map (fun n : Nat =>
          ((((colIndex + 1 + n / 7 : Nat)) : Int) * 14 + 32,
            some (((n % 7 : Nat) : Int) * 14 + 20))) =
        (List.range (7 * ws.length)).map
          ((fun n : Nat => ((((colIndex + n / 7 : Nat)) : Int) * 14 + 32,
            some (((n % 7 : Nat) : Int) * 14 + 20))) ∘ fun x => 7 + x) := by
      apply List.map_congr_left
      intro n _
      simp only [Function.comp_apply]
      rw [Nat.add_mod_left, show (7 + n) / 7 = 1 + n / 7 by omega,
        show colIndex + (1 + n / 7) = colIndex + 1 + n / 7 by omega]
    rw [h2, h3]

theorem grid_xy_nodup (n : Nat) :
    ((List.range n).map (fun n : Nat =>
      ((((0 + n / 7 : Nat)) : Int) * 14 + 32, some (((n % 7 : Nat) : Int) * 14 + 20)))).Nodup := by
  apply List.Nodup.map_on _ (List.nodup_range n)
  intro a _ b _ h
  have h1 := congrArg Prod.fst h
  have h2 := Option.some.inj (congrArg Prod.snd h)
  simp only at h1 h2
  omega

/-- C11 (amended): for every year from -271820 to 275759, in every week of the
grid the cell at position `k` (0 to 6) has `dayOfWeek = k`, for padding cells
and real days alike; so the 7 cells of a column are in 7 distinct rows, the
rectangle of cell `n` of the grid is at
`(x, y) = (14 * (n / 7) + 32, 14 * (n % 7) + 20)`, and no two rectangles share
their `(x, y)`. -/
theorem cell_rows (year : Int) (hlo : -271820 ≤ year) (hhi : year ≤ 275759)
    (dataDict : String → Option Nat) :
    ∃ g, renderGreenWall true year dataDict = RenderResult.svg g ∧
      (∀ w ∈ g.weeks,
        w.map DayCell.dayOfWeek = (List.range 7).map (fun k : Nat => some (k : Int))) ∧
      (∀ w ∈ g.weeks, (w.map DayCell.dayOfWeek).Nodup) ∧
      g.rects.map (fun r => (r.x, r.y)) =
        (List.range (7 * g.weeks.length)).map (fun n : Nat =>
          (((n / 7 : Nat) : Int) * 14 + 32, some (((n % 7 : Nat) : Int) * 14 + 20))) ∧
      (g.rects.map (fun r => (r.x, r.y))).Nodup := by
  obtain ⟨g, hg, hw, hr, _⟩ := renderGreenWall_svg year dataDict
  have hrow : ∀ w ∈ g.weeks,
      w.map DayCell.dayOfWeek = (List.range 7).map (fun k : Nat => some (k : Int)) := by
    rw [hw]
    exact week_rows _ (buildWeeks_length7 _) (grid_dayOfWeek year hlo hhi dataDict)
  have hxy := rectsFrom_xy g.weeks 0 hrow
  rw [← hr] at hxy
  refine ⟨g, hg, hrow, ?_, ?_, ?_⟩
  · intro w hw2
    rw [hrow w hw2]
    decide
  · rw [hxy]
    apply List.map_congr_left
    intro n _
    rw [Nat.zero_add]
  · rw [hxy]
    exact grid_xy_nodup _

/-- Witness for C11: the year 2024 with the data of the call example. -/
theorem cell_rows_witness :
    ∃ g, renderGreenWall true 2024 exampleData = RenderResult.svg g ∧
      (∀ w ∈ g.weeks,
        w.map DayCell.dayOfWeek = (List.range 7).map (fun k : Nat => some (k : Int))) ∧
      (g.rects.map (fun r => (r.x, r.y))).Nodup := by
  obtain ⟨g, hg, h1, _, _, h4⟩ := cell_rows 2024 (by decide) (by decide) exampleData
  exact ⟨g, hg, h1, h4⟩

set_option maxRecDepth 100000 in
theorem buildWeeks_300000_head :
    ((buildWeeks (paddedData 300000 emptyData)).head?.map
        (fun w => w.map DayCell.dayOfWeek)) =
      some [none, none, none, none, none, none, none] := by decide!

/-- C11 fails for the year 300000, outside the range of `Date`: the 7 cells of
the first week are real days with `dayOfWeek = NaN`, not 0 to 6. -/
theorem cell_rows_counterexample :
    ¬ ∃ g, renderGreenWall true 300000 emptyData = RenderResult.svg g ∧
      ∀ w ∈ g.weeks,
        w.map DayCell.dayOfWeek = (List.range 7).map (fun k : Nat => some (k : Int)) := by
  rintro ⟨g, hg, h⟩
  obtain ⟨g2, hg2, hw, _, _⟩ := renderGreenWall_svg 300000 emptyData
  rw [hg] at hg2
  cases hg2
  rw [hw] at h
  have h0 := buildWeeks_300000_head
  cases hh : (buildWeeks (paddedData 300000 emptyData)) with
  | nil => rw [hh] at h0; cases h0
  | cons w ws =>
    rw [hh] at h0 h
    have h1 := h w (List.mem_cons_self _ _)
    simp only [List.head?_cons, Option.map_some', Option.some.injEq] at h0
    rw [h0] at h1
    exact absurd h1 (by decide)

/-! ## C12: the link lists -/

theorem foldl_appendChild (own : Area) (nodes : List Node) (dom : Dom) (x : Area) :
    (nodes.foldl (fun d node => appendChild d own node) dom) x =
      if x = own then dom x ++ nodes else dom x := by
  induction nodes generalizing dom with
  | nil => simp
  | cons n ns ih =>
    rw [List.foldl_cons, ih]
    unfold appendChild
    split_ifs <;> simp

theorem separated_nil (render : Entry → List Node) : separated render [] = [] := rfl

theorem separated_single (render : Entry → List Node) (e : Entry) :
    separated render [e] = render e := by
  simp [separated, List.intercalate, List.intersperse]

theorem separated_cons_cons (render : Entry → List Node) (e e2 : Entry) (rest : List Entry) :
    separated render (e :: e2 :: rest) =
      render e ++ sepNode :: separated render (e2 :: rest) := by
  simp [separated, List.intercalate, List.intersperse]

theorem drop_of_get (list : List Entry) (i : Nat) (e : Entry) (h : list.get? i = some e) :
    list.drop i = e :: list.drop (i + 1) := by
  induction list generalizing i with
  | nil => simp at h
  | cons a t ih =>
    cases i with
    | zero =>
      simp only [List.get?_cons_zero, Option.some.injEq] at h
      simp [h]
    | succ i =>
      simp only [List.get?_cons_succ] at h
      simpa using ih i h

/-- A loop whose separator goes to its own area appends there the entries from
index `i` on, in input order, with one separator between consecutive entries,
and appends nothing to any other area. -/
theorem linkLoop_own (present : Area → Bool) (own : Area) (render : Entry → List Node)
    (list : List Entry) (hp : present own = true) (fuel i : Nat) (dom : Dom)
    (h : list.length ≤ i + fuel) :
    ∃ dom', linkLoop present own own render list fuel i dom = some dom' ∧
      dom' own = dom own ++ separated render (list.drop i) ∧
      ∀ x, x ≠ own → dom' x = dom x := by
  induction fuel generalizing i dom with
  | zero =>
    refine ⟨dom, rfl, ?_, fun _ _ => rfl⟩
    rw [List.drop_eq_nil_of_le (by omega), separated_nil, List.append_nil]
  | succ fuel ih =>
    unfold linkLoop
    cases hget : list.get? i with
    | none =>
      have hge : list.length ≤ i := List.get?_eq_none.mp hget
      refine ⟨dom, rfl, ?_, fun _ _ => rfl⟩
      rw [List.drop_eq_nil_of_le hge, separated_nil, List.append_nil]
    | some e =>
      have hd := drop_of_get list i e hget
      simp only []
      split_ifs with hlt
      · obtain ⟨dom', h1, h2, h3⟩ := ih (i + 1)
          (appendChild ((render e).foldl (fun d node => appendChild d own node) dom) own
            sepNode) (by omega)
        refine ⟨dom', h1, ?_, ?_⟩
        · obtain ⟨e2, hg2⟩ : ∃ e2, list.get? (i + 1) = some e2 := by
            cases hh : list.get? (i + 1) with
            | none => exact absurd (List.get?_eq_none.mp hh) (by omega)
            | some e2 => exact ⟨e2, rfl⟩
          have hd2 := drop_of_get list (i + 1) e2 hg2
          rw [h2, hd, hd2, separated_cons_cons]
          simp [appendChild, foldl_appendChild]
        · intro x hx
          rw [h3 x hx]
          simp [appendChild, foldl_appendChild, hx]
      · obtain ⟨dom', h1, h2, h3⟩ := ih (i + 1)
          ((render e).foldl (fun d node => appendChild d own node) dom) (by omega)
        refine ⟨dom', h1, ?_, ?_⟩
        · rw [h2, hd, List.drop_eq_nil_of_le (show list.length ≤ i + 1 by omega),
            separated_nil, separated_single]
          simp [foldl_appendChild]
        · intro x hx
          rw [h3 x hx]
          simp [foldl_appendChild, hx]

/-- A loop whose separator goes to another area appends to its own area the
entries from index `i` on with no separator, and the separators, one less than
the entries, to that other area. -/
theorem linkLoop_other (present : Area → Bool) (own sep : Area) (hne : own ≠ sep)
    (render : Entry → List Node) (list : List Entry) (hp : present sep = true)
    (fuel i : Nat) (dom : Dom) (h : list.length ≤ i + fuel) :
    ∃ dom', linkLoop present own sep render list fuel i dom = some dom' ∧
      dom' own = dom own ++ ((list.drop i).map render).flatten ∧
      dom' sep = dom sep ++ List.replicate (list.length - i - 1) sepNode ∧
      ∀ x, x ≠ own → x ≠ sep → dom' x = dom x := by
  induction fuel generalizing i dom with
  | zero =>
    refine ⟨dom, rfl, ?_, ?_, fun _ _ _ => rfl⟩
    · rw [List.drop_eq_nil_of_le (by omega)]; simp
    · rw [show list.length - i - 1 = 0 by omega]; simp
  | succ fuel ih =>
    unfold linkLoop
    cases hget : list.get? i with
    | none =>
      have hge : list.length ≤ i := List.get?_eq_none.mp hget
      refine ⟨dom, rfl, ?_, ?_, fun _ _ _ => rfl⟩
      · rw [List.drop_eq_nil_of_le hge]; simp
      · rw [show list.length - i - 1 = 0 by omega]; simp
    | some e =>
      have hd := drop_of_get list i e hget
      have hne2 : sep ≠ own := fun h => hne h.symm
      simp only []
      split_ifs with hlt
      · obtain ⟨dom', h1, h2, h3, h4⟩ := ih (i + 1)
          (appendChild ((render e).foldl (fun d node => appendChild d own node) dom) sep
            sepNode) (by omega)
        refine ⟨dom', h1, ?_, ?_, ?_⟩
        · rw [h2, hd]
          simp [appendChild, foldl_appendChild, hne]
        · rw [h3, show list.length - i - 1 = (list.length - (i + 1) - 1) + 1 by omega,
            List.replicate_succ]
          simp [appendChild, foldl_appendChild, hne2]
        · intro x hx hx2
          rw [h4 x hx hx2]
          simp [appendChild, foldl_appendChild, hx, hx2]
      · obtain ⟨dom', h1, h2, h3, h4⟩ := ih (i + 1)
          ((render e).foldl (fun d node => appendChild d own node) dom) (by omega)
        refine ⟨dom', h1, ?_, ?_, ?_⟩
        · rw [h2, hd]
          simp [foldl_appendChild]
        · rw [h3, show list.length - i - 1 = list.length - (i + 1) - 1 by omega]
          simp [foldl_appendChild, hne2]
        · intro x hx hx2
          rw [h4 x hx hx2]
          simp [foldl_appendChild, hx]

/-- C12, at the failing input: with two entries in `forum_most_favorite`, the
loop of that list appends its separator to `thread_favorite_most_link_area`;
its own area gets the two anchors with no separator between them. -/
theorem link_areas_forum_separator :
    (generate_report.link_areas (fun _ => true) exampleLinks (fun _ => [])).map
        (fun dom => (dom Area.forum_most_favorite_link_area,
          dom Area.thread_favorite_most_link_area)) =
      some ([Node.a "https://bbs.uestc.edu.cn/forum/25" "Water",
             Node.a "https://bbs.uestc.edu.cn/forum/61" "Market"],
            [Node.a "https://bbs.uestc.edu.cn/thread/108" "Eighth thread",
             Node.span "，"]) := by
  decide

end Report
